import Mathlib

/-!
Verification development for the react-to-angular transpiler.

The transformer rules and generators of the repository operate on Python
dictionaries produced by the esprima-based JSX parser (`_node_to_dict`
converts every parser node into a plain dict with a `type` discriminator).
We therefore model Python values with a deep embedding `PyVal`
(None / bool / int / str / list / dict as an insertion-ordered
association list, mirroring Python dict semantics), and translate each
rule and generator of the repository into an executable Lean function
over `PyVal`.

Modelling conventions, used consistently below:
* Python `dict.get(k, d)` is `PyVal.dget`; on non-dict receivers Python
  would raise `AttributeError` — the modelled total function returns the
  default there, and every such spot is only reachable for inputs outside
  the shapes the pipeline produces (noted locally where relevant).
* Python truthiness is `PyVal.truthy`.
* Unbounded recursive traversals over dict/list structure take an
  explicit `fuel : Nat`; the Python functions coincide with the model
  whenever the fuel exceeds the recursion depth, and top-level wrappers
  and theorems either quantify over the fuel or use a fuel that is
  manifestly large enough for the concrete input.
-/

set_option maxHeartbeats 1000000
set_option maxRecDepth 16384

/-- Deep embedding of the Python values the transpiler manipulates:
`None`, booleans, integers, strings, lists, and insertion-ordered
dictionaries with string keys (the only keys the code ever uses). -/
inductive PyVal where
  | vNone
  | vBool (b : Bool)
  | vInt (n : Int)
  | vStr (s : String)
  | vList (xs : List PyVal)
  | vDict (fs : List (String × PyVal))

open PyVal

/-- First-match association-list lookup: Python dicts have unique keys, so
this is exactly `dict.__getitem__` / the hit case of `dict.get`. -/
def lookupKey : List (String × PyVal) → String → Option PyVal
  | [], _ => none
  | (k, v) :: rest, key => if k == key then some v else lookupKey rest key

/-- Python `d[k] = v`: replace in place if the key exists (keeping its
position), otherwise append the new key at the end — Python dicts preserve
insertion order. -/
def setKey : List (String × PyVal) → String → PyVal → List (String × PyVal)
  | [], key, v => [(key, v)]
  | (k, w) :: rest, key, v =>
    if k == key then (k, v) :: rest else (k, w) :: setKey rest key v

/-- `node.get(k)` with no default: `some` on a dict hit, `none` otherwise.
On non-dict receivers Python raises; the model yields `none`. -/
def PyVal.dgetOpt : PyVal → String → Option PyVal
  | .vDict fs, k => lookupKey fs k
  | _, _ => none

/-- `node.get(k, dflt)`. -/
def PyVal.dget (v : PyVal) (k : String) (dflt : PyVal) : PyVal :=
  (v.dgetOpt k).getD dflt

/-- Python `k in d`. -/
def PyVal.hasKey (v : PyVal) (k : String) : Bool :=
  (v.dgetOpt k).isSome

/-- Python truthiness of a value. -/
def PyVal.truthy : PyVal → Bool
  | .vNone => false
  | .vBool b => b
  | .vInt n => n != 0
  | .vStr s => s != ""
  | .vList xs => !xs.isEmpty
  | .vDict fs => !fs.isEmpty

/-- Python `d[k] = v` on a value; non-dict receivers are left unchanged
(Python would raise `TypeError` there — unreachable in the modelled paths). -/
def PyVal.dset : PyVal → String → PyVal → PyVal
  | .vDict fs, k, v => .vDict (setKey fs k v)
  | x, _, _ => x

/-- Apply `f` to the value stored under `k` when the key is present
(`d[k] = f(d[k])` guarded by presence); used to model in-place mutation of
a nested structure reached by indexing. -/
def PyVal.updateIfPresent : PyVal → String → (PyVal → PyVal) → PyVal
  | .vDict fs, k, f =>
    .vDict (fs.map (fun kv => bif kv.1 == k then (kv.1, f kv.2) else kv))
  | x, _, _ => x

/-- Structural equality test mirroring Python `==` on the values that
actually get compared in this code base (strings, the `None`/`""`/`[]`
sentinels, small dicts).  Python's numeric `True == 1` identification is
not modelled; the code never compares booleans with integers. -/
def pyBeq : PyVal → PyVal → Bool
  | .vNone, .vNone => true
  | .vBool a, .vBool b => a == b
  | .vInt a, .vInt b => a == b
  | .vStr a, .vStr b => a == b
  | .vList xs, .vList ys => pyBeqList xs ys
  | .vDict fs, .vDict gs => pyBeqFields fs gs
  | _, _ => false
where
  pyBeqList : List PyVal → List PyVal → Bool
    | [], [] => true
    | x :: xs, y :: ys => pyBeq x y && pyBeqList xs ys
    | _, _ => false
  pyBeqFields : List (String × PyVal) → List (String × PyVal) → Bool
    | [], [] => true
    | (k, v) :: fs, (l, w) :: gs => k == l && pyBeq v w && pyBeqFields fs gs
    | _, _ => false

instance : BEq PyVal := ⟨pyBeq⟩

/-- Python `repr` of a string: single quotes unless the text contains a
single quote and no double quote.  Escaping of quotes inside the text is
elided; no string in the modelled pipeline contains both quote kinds. -/
def pyStrQuote (s : String) : String :=
  if s.data.contains (Char.ofNat 39) && !(s.data.contains (Char.ofNat 34)) then
    "\x22" ++ s ++ "\x22"
  else
    "\x27" ++ s ++ "\x27"

mutual
/-- Python `repr` of a value (used by `str` on containers and by the
`repr(...)` calls in the node printers).  Dict/list reprs follow insertion
order, exactly like CPython. -/
def pyRepr : PyVal → String
  | .vNone => "None"
  | .vBool true => "True"
  | .vBool false => "False"
  | .vInt n => toString n
  | .vStr s => pyStrQuote s
  | .vList xs => "[" ++ pyReprList xs ++ "]"
  | .vDict fs => "\x7b" ++ pyReprFields fs ++ "\x7d"

def pyReprList : List PyVal → String
  | [] => ""
  | [x] => pyRepr x
  | x :: xs => pyRepr x ++ ", " ++ pyReprList xs

def pyReprFields : List (String × PyVal) → String
  | [] => ""
  | [(k, v)] => pyStrQuote k ++ ": " ++ pyRepr v
  | (k, v) :: rest => pyStrQuote k ++ ": " ++ pyRepr v ++ ", " ++ pyReprFields rest
end

/-- Python `str` of a value: the text itself for strings, `repr`-style
rendering otherwise (matching `str()` on None/bool/int/list/dict). -/
def pyStr : PyVal → String
  | .vStr s => s
  | v => pyRepr v

/-- The string stored in a value, or a fallback when it is not a string. -/
def PyVal.asStrOr (v : PyVal) (dflt : String) : String :=
  match v with
  | .vStr s => s
  | _ => dflt

/-! ## String machinery

Executable translations of the Python string operations and of the concrete
regular expressions appearing in `string_utils.py`, `event_rules.py` and
`typescript_generator.py`.  Each scanner that walks a suffix of its input
takes a fuel argument; callers pass `length + 1`, which always suffices
because every step consumes at least one character of the original text. -/

/-- Python `\w` (ASCII fragment, the only one exercised here). -/
def isWordChar (c : Char) : Bool := c.isAlphanum || c == Char.ofNat 95

/-- Python `\s` (the whitespace appearing in the processed sources). -/
def isWsChar (c : Char) : Bool :=
  c == Char.ofNat 32 || c == Char.ofNat 9 || c == Char.ofNat 10 || c == Char.ofNat 13

/-- Match a literal character sequence at the head of the text, returning
the remainder on success. -/
def matchLit : List Char → List Char → Option (List Char)
  | [], rest => some rest
  | _ :: _, [] => none
  | p :: ps, c :: cs => if c == p then matchLit ps cs else none

/-- `\s*`: drop leading whitespace. -/
def skipWs (l : List Char) : List Char := l.dropWhile isWsChar

/-- Python whitespace for `str.strip` (the ASCII variants occurring in the
processed sources). -/
def isPyWs (c : Char) : Bool :=
  c == Char.ofNat 32 || c == Char.ofNat 9 || c == Char.ofNat 10 ||
  c == Char.ofNat 13 || c == Char.ofNat 11 || c == Char.ofNat 12

/-- Python `s.strip()`. -/
def pyStrip (s : String) : String :=
  String.mk (((s.data.dropWhile isPyWs).reverse.dropWhile isPyWs).reverse)

/-- Python `s.rstrip()`. -/
def pyRstrip (s : String) : String :=
  String.mk ((s.data.reverse.dropWhile isPyWs).reverse)

/-- Python `s.lower()` (ASCII). -/
def strToLower (s : String) : String := String.mk (s.data.map Char.toLower)

/-- Python `s.startswith(p)`. -/
def strStartsWith (s p : String) : Bool := (matchLit p.data s.data).isSome

/-- Python `s.endswith(p)`. -/
def strEndsWith (s p : String) : Bool :=
  (matchLit p.data.reverse s.data.reverse).isSome

def pyReplaceAux (pat rep : List Char) : Nat → List Char → List Char
  | 0, cs => cs
  | _ + 1, [] => []
  | fuel + 1, c :: cs =>
    match matchLit pat (c :: cs) with
    | some rest => rep ++ pyReplaceAux pat rep fuel rest
    | none => c :: pyReplaceAux pat rep fuel cs

/-- Python `s.replace(old, new)`: all non-overlapping occurrences, left to
right; the empty pattern inserts the replacement around every character. -/
def pyReplace (s pat rep : String) : String :=
  if pat == "" then
    String.mk (rep.data ++ (s.data.map (fun c => [c] ++ rep.data)).flatten)
  else String.mk (pyReplaceAux pat.data rep.data (s.length + 1) s.data)

def pySplitAux (sep : List Char) (cur : List Char) : Nat → List Char → List String
  | 0, cs => [String.mk (cur.reverse ++ cs)]
  | _ + 1, [] => [String.mk cur.reverse]
  | fuel + 1, c :: cs =>
    match matchLit sep (c :: cs) with
    | some rest => String.mk cur.reverse :: pySplitAux sep [] fuel rest
    | none => pySplitAux sep (c :: cur) fuel cs

/-- Python `s.split(sep)` for a non-empty separator. -/
def pySplitOn (s sep : String) : List String :=
  if sep == "" then [s] else pySplitAux sep.data [] (s.length + 1) s.data

/-- Python `str.splitlines()` restricted to the newline separator (the only
line break the pipeline produces): like `splitOn "\n"` but with no entry
for a trailing newline and `[]` for the empty string. -/
def pySplitlines (s : String) : List String :=
  if s == "" then []
  else
    let parts := pySplitOn s "\n"
    if parts.getLast? == some "" then parts.dropLast else parts

/-- Python `sub in s`. -/
def strContainsSub (s sub : String) : Bool :=
  if sub == "" then true else (pySplitOn s sub).length > 1

/-- Python `s.isdigit()` on the ASCII digits relevant here. -/
def pyIsDigitStr (s : String) : Bool := s != "" && s.data.all Char.isDigit

/-- Split into maximal `[a-zA-Z0-9]+` runs — `re.findall` in
`to_pascal_case` (accumulator holds the current run reversed). -/
def alnumRunsAux : List Char → List Char → List (List Char)
  | cur, [] => if cur.isEmpty then [] else [cur.reverse]
  | cur, c :: cs =>
    if c.isAlphanum then alnumRunsAux (c :: cur) cs
    else if cur.isEmpty then alnumRunsAux [] cs
    else cur.reverse :: alnumRunsAux [] cs

/-- Python `str.capitalize()`: first character upper-cased, the rest
lower-cased. -/
def pyCapitalize (w : List Char) : String :=
  match w with
  | [] => ""
  | c :: cs => String.mk (c.toUpper :: cs.map Char.toLower)

/-- `string_utils.to_pascal_case`. -/
def to_pascal_case (s : String) : String :=
  String.join ((alnumRunsAux [] s.data).map pyCapitalize)

/-- `string_utils.to_camel_case`. -/
def to_camel_case (s : String) : String :=
  let p := to_pascal_case s
  match p.data with
  | [] => ""
  | c :: cs => String.mk (c.toLower :: cs)

/-- Stable ascending insertion (Python `sorted` on strings). -/
def insertStrAsc (x : String) : List String → List String
  | [] => [x]
  | y :: ys => if compare y x != Ordering.gt then y :: insertStrAsc x ys else x :: y :: ys

/-- Python `sorted` of a list of strings (code-point lexicographic). -/
def sortStringsAsc (l : List String) : List String :=
  l.foldl (fun acc x => insertStrAsc x acc) []

/-- Keep the first occurrence of each string (models building `set(...)`;
CPython iteration order of a string set is unspecified, but the orders in
question never affect the produced text — ties are between distinct
identifiers whose substitutions commute). -/
def dedupFirstAux (seen : List String) : List String → List String
  | [] => []
  | x :: xs =>
    if seen.contains x then dedupFirstAux seen xs
    else x :: dedupFirstAux (x :: seen) xs

def dedupFirst (l : List String) : List String := dedupFirstAux [] l

/-- Stable insertion by decreasing length (the `sorted(..., key=lambda x:
-len(x))` in `_prefix_this_to_identifiers`: longer identifiers first). -/
def insertByLenDesc (x : String) : List String → List String
  | [] => [x]
  | y :: ys => if y.length ≥ x.length then y :: insertByLenDesc x ys else x :: y :: ys

def sortByLenDesc (l : List String) : List String :=
  l.foldl (fun acc x => insertByLenDesc x acc) []

/-- One identifier pass of `_prefix_this_to_identifiers`: the substitution
`re.sub(r..(?<!this\.)(?<!\.)\b{ident}\b.., "this."+ident, text)`, scanning
the original text left to right (like `re.sub`, a replacement is not
rescanned).  `prev` is the character just before the current position in
the original text, used for the word boundary and the lookbehinds
(`(?<!\.)` subsumes `(?<!this\.)`). -/
def subIdentAux (ident : List Char) (identStr : String) :
    Nat → Option Char → List Char → List Char
  | 0, _, cs => cs
  | _ + 1, _, [] => []
  | fuel + 1, prev, c :: cs =>
    let boundaryOk := match prev with
      | none => true
      | some p => !(isWordChar p) && p != Char.ofNat 46
    if boundaryOk then
      match matchLit ident (c :: cs) with
      | some rest =>
        let afterOk := match rest with
          | [] => true
          | r :: _ => !(isWordChar r)
        if afterOk then
          ("this." ++ identStr).data ++ subIdentAux ident identStr fuel ident.getLast? rest
        else
          c :: subIdentAux ident identStr fuel (some c) cs
      | none => c :: subIdentAux ident identStr fuel (some c) cs
    else
      c :: subIdentAux ident identStr fuel (some c) cs

/-- Scan for the closing quote of a string literal on the same line
(`.` in the protection regex does not match a newline): returns the
characters inside and the remainder after the closing quote. -/
def findCloseQuote (q : Char) : List Char → Option (List Char × List Char)
  | [] => none
  | c :: cs =>
    if c == Char.ofNat 10 then none
    else if c == q then some ([], cs)
    else
      match findCloseQuote q cs with
      | some (inner, rest) => some (c :: inner, rest)
      | none => none

/-- The string-literal protection pass of `_prefix_this_to_identifiers`:
`re.sub(r"(\".*?\"|'.*?')", placeholder, s)` with placeholders
`__STR_0__`, `__STR_1__`, … numbered in match order. -/
def protectStringsAux : Nat → Nat → List Char → (List Char × List (String × String))
  | 0, _, cs => (cs, [])
  | _ + 1, _, [] => ([], [])
  | fuel + 1, counter, c :: cs =>
    if c == Char.ofNat 34 || c == Char.ofNat 39 then
      match findCloseQuote c cs with
      | some (inner, rest) =>
        let key := "__STR_" ++ toString counter ++ "__"
        let lit := String.mk (c :: (inner ++ [c]))
        let r := protectStringsAux fuel (counter + 1) rest
        (key.data ++ r.1, (key, lit) :: r.2)
      | none =>
        let r := protectStringsAux fuel counter cs
        (c :: r.1, r.2)
    else
      let r := protectStringsAux fuel counter cs
      (c :: r.1, r.2)

/-- Restore the protected literals (`protected.replace(k, v)` for each
placeholder, in insertion order). -/
def restoreStrings (s : String) (mp : List (String × String)) : String :=
  mp.foldl (fun acc kv => pyReplace acc kv.1 kv.2) s

/-- `TypeScriptGenerator._prefix_this_to_identifiers`. -/
def prefixThisToIdentifiers (text : String) (identifiers : List String) : String :=
  if identifiers.isEmpty then text
  else
    let prot := protectStringsAux (text.length + 1) 0 text.data
    let sorted := sortByLenDesc (dedupFirst identifiers)
    let replaced := sorted.foldl
      (fun cs ident =>
        if ident == "" then cs
        else subIdentAux ident.data ident (cs.length + 1) none cs)
      prot.1
    restoreStrings (String.mk replaced) prot.2

/-- Driver for `re.sub` with a literal-prefixed pattern: scan the text left
to right, replace each non-overlapping match and continue after it (the
replacement text is not rescanned), otherwise advance one character. -/
def subAllAux (attempt : List Char → Option (String × List Char)) :
    Nat → List Char → List Char
  | 0, cs => cs
  | _ + 1, [] => []
  | fuel + 1, c :: cs =>
    match attempt (c :: cs) with
    | some (rep, rest) => rep.data ++ subAllAux attempt fuel rest
    | none => c :: subAllAux attempt fuel cs

/-- Association lookup for the string-to-string setter map. -/
def lookupStr : List (String × String) → String → Option String
  | [], _ => none
  | (k, v) :: rest, key => if k == key then some v else lookupStr rest key

/-- Matcher for `{setter}\(\s*\[\s*\.\.\.{state}\s*,\s*([^\]]+)\]\s*\)` at
the head of the text (the `setX([...state, tail])` rewrite in
`_normalize_method_body`); returns the raw capture and the remainder. -/
def matchSpread1 (setter state : List Char) (l : List Char) :
    Option (String × List Char) :=
  (matchLit setter l).bind fun l1 =>
  (matchLit "(".data l1).bind fun l2 =>
  (matchLit "[".data (skipWs l2)).bind fun l4 =>
  (matchLit "...".data (skipWs l4)).bind fun l6 =>
  (matchLit state l6).bind fun l7 =>
  (matchLit ",".data (skipWs l7)).bind fun l9 =>
  let sp := (skipWs l9).span (fun c => c != Char.ofNat 93)
  if sp.1.isEmpty then none
  else
    (matchLit "]".data sp.2).bind fun l12 =>
    (matchLit ")".data (skipWs l12)).map fun rest => (String.mk sp.1, rest)

/-- Matcher for `{setter}\(\s*\[\s*([^\],]+)\s*,\s*\.\.\.{state}\s*\]\s*\)`
(the `setX([head, ...state])` rewrite). -/
def matchSpread2 (setter state : List Char) (l : List Char) :
    Option (String × List Char) :=
  (matchLit setter l).bind fun l1 =>
  (matchLit "(".data l1).bind fun l2 =>
  (matchLit "[".data (skipWs l2)).bind fun l4 =>
  let sp := (skipWs l4).span (fun c => c != Char.ofNat 93 && c != Char.ofNat 44)
  if sp.1.isEmpty then none
  else
    (matchLit ",".data sp.2).bind fun l6 =>
    (matchLit "...".data (skipWs l6)).bind fun l8 =>
    (matchLit state l8).bind fun l9 =>
    (matchLit "]".data (skipWs l9)).bind fun l11 =>
    (matchLit ")".data (skipWs l11)).map fun rest => (String.mk sp.1, rest)

/-- Matcher for the generic `{setter}\(\s*(.+?)\s*\)` (with `re.S`): the
leftmost-shortest match ends at the first closing parenthesis, and requires
at least one character between the parentheses; the effective capture after
the surrounding `\s*` stripping is `inner.strip()`. -/
def matchSetterGeneric (setter : List Char) (l : List Char) :
    Option (String × List Char) :=
  (matchLit setter l).bind fun l1 =>
  (matchLit "(".data l1).bind fun l2 =>
  let sp := l2.span (fun c => c != Char.ofNat 41)
  if sp.1.isEmpty then none
  else
    (matchLit ")".data sp.2).map fun rest => (String.mk sp.1, rest)

/-- The three setter-call rewrites of `_normalize_method_body`, applied in
source order for each `(setter, state)` pair of the setter map. -/
def applySetterSubs (propNames : List String) (setters : List (String × String))
    (body : String) : String :=
  setters.foldl
    (fun b kv =>
      let setter := kv.1
      let state := kv.2
      let b1 := String.mk (subAllAux
        (fun l => (matchSpread1 setter.data state.data l).map
          (fun r => ("this." ++ state ++ " = [...this." ++ state ++ ", " ++
                     prefixThisToIdentifiers (pyStrip r.1) propNames ++ "]", r.2)))
        (b.length + 1) b.data)
      let b2 := String.mk (subAllAux
        (fun l => (matchSpread2 setter.data state.data l).map
          (fun r => ("this." ++ state ++ " = [" ++
                     prefixThisToIdentifiers (pyStrip r.1) propNames ++ ", ...this." ++
                     state ++ "]", r.2)))
        (b1.length + 1) b1.data)
      String.mk (subAllAux
        (fun l => (matchSetterGeneric setter.data l).map
          (fun r => ("this." ++ state ++ " = " ++
                     prefixThisToIdentifiers (pyStrip r.1) propNames, r.2)))
        (b2.length + 1) b2.data))
    body

/-- Matcher at one position for the first handler pattern of
`_transform_arrow_function_handler`:
`\(\s*(\w+)\s*\)\s*=>\s*(\w+)\s*\(\s*\1(?:\.target)?\.value\s*\)`.
Returns the two captures (parameter, callee). -/
def matchArrow1At (l : List Char) : Option (String × String) :=
  (matchLit "(".data l).bind fun l1 =>
  let p := (skipWs l1).span isWordChar
  if p.1.isEmpty then none
  else
    (matchLit ")".data (skipWs p.2)).bind fun l5 =>
    (matchLit "=>".data (skipWs l5)).bind fun l7 =>
    let f := (skipWs l7).span isWordChar
    if f.1.isEmpty then none
    else
      (matchLit "(".data (skipWs f.2)).bind fun l11 =>
      (matchLit p.1 (skipWs l11)).bind fun l13 =>
      let viaTarget := (matchLit ".target".data l13).bind (matchLit ".value".data)
      let direct := matchLit ".value".data l13
      ((viaTarget <|> direct).bind fun l15 =>
        (matchLit ")".data (skipWs l15)).map fun _ => (String.mk p.1, String.mk f.1))

/-- `re.search` driver for the first handler pattern. -/
def searchArrow1 : Nat → List Char → Option (String × String)
  | 0, _ => none
  | _ + 1, [] => none
  | fuel + 1, c :: cs =>
    match matchArrow1At (c :: cs) with
    | some r => some r
    | none => searchArrow1 fuel cs

/-- Matcher at one position for the second handler pattern
`\(\s*(\w+)\s*\)\s*=>\s*(.+)` (the trailing capture runs to the end of the
line, `.` not matching a newline). -/
def matchArrow2At (l : List Char) : Option (String × String) :=
  (matchLit "(".data l).bind fun l1 =>
  let p := (skipWs l1).span isWordChar
  if p.1.isEmpty then none
  else
    (matchLit ")".data (skipWs p.2)).bind fun l5 =>
    (matchLit "=>".data (skipWs l5)).bind fun l7 =>
    let rest := (skipWs l7).takeWhile (fun c => c != Char.ofNat 10)
    if rest.isEmpty then none else some (String.mk p.1, String.mk rest)

/-- `re.search` driver for the second handler pattern. -/
def searchArrow2 : Nat → List Char → Option (String × String)
  | 0, _ => none
  | _ + 1, [] => none
  | fuel + 1, c :: cs =>
    match matchArrow2At (c :: cs) with
    | some r => some r
    | none => searchArrow2 fuel cs

/-- `re.search(r"of\s+(\w+)", ngfor)` used when an `ngFor` entry is a
string in `_extract_auto_properties`. -/
def searchOfWord : Nat → List Char → Option String
  | 0, _ => none
  | _ + 1, [] => none
  | fuel + 1, c :: cs =>
    match
      (matchLit "of".data (c :: cs)).bind fun l1 =>
        let l2 := l1.dropWhile isWsChar
        if l2.length == l1.length then none
        else
          let w := l2.takeWhile isWordChar
          if w.isEmpty then none else some (String.mk w)
    with
    | some r => some r
    | none => searchOfWord fuel cs

/-! ## Transformer rules

Faithful translations of `hooks_rules.py`, `component_rules.py`,
`jsx_rules.py`, `event_rules.py` and `ast_transformer.py`.  Places where
the Python code would raise on malformed input (attribute access on
non-dict values, indexing non-lists) are modelled by the defaulting
behaviour of `dget`/`asList`; none of those spots is reachable from the
node shapes the esprima parser produces. -/

/-- The elements of a list value (`[]` for anything else — iterating a
non-list either raises or walks characters in Python; unreachable here). -/
def PyVal.asList : PyVal → List PyVal
  | .vList l => l
  | _ => []

/-- `HooksRules._is_usestate_call`. -/
def isUsestateCall (decl : PyVal) : Bool :=
  match decl with
  | .vDict _ =>
    let ini := decl.dget "init" (vDict [])
    match ini with
    | .vDict _ =>
      let callee := ini.dget "callee" (vDict [])
      match callee with
      | .vDict _ => callee.dget "name" vNone == vStr "useState"
      | .vStr s => s == "useState"
      | _ => false
    | _ => false
  | _ => false

/-- `HooksRules._node_to_string`. Fuel exhaustion falls back to the same
`str(node)` rendering as the unknown-node case; the fuel used by callers
always exceeds the node depth. -/
def nodeToStringH : Nat → PyVal → String
  | 0, node => pyStr node
  | fuel + 1, node =>
    match node with
    | .vDict _ =>
      let t := node.dget "type" (vStr "")
      if t == vStr "ArrayExpression" then
        "[" ++ String.intercalate ", "
          ((node.dget "elements" (vList [])).asList.map (nodeToStringH fuel)) ++ "]"
      else if t == vStr "Literal" then pyRepr (node.dget "value" (vStr ""))
      else if t == vStr "Identifier" then pyStr (node.dget "name" (vStr ""))
      else if t == vStr "StringLiteral" then pyRepr (node.dget "value" (vStr ""))
      else if t == vStr "NumericLiteral" then pyStr (node.dget "value" (vStr ""))
      else if t == vStr "BooleanLiteral" then pyStr (node.dget "value" (vStr ""))
      else if t == vStr "CallExpression" then
        nodeToStringH fuel (node.dget "callee" (vDict [])) ++ "(" ++
          String.intercalate ", "
            ((node.dget "arguments" (vList [])).asList.map (nodeToStringH fuel)) ++ ")"
      else pyStr node
    | _ => pyStr node

/-- `HooksRules._extract_initial_value`. -/
def extractInitialValue (fuel : Nat) (iniNode : PyVal) : String :=
  match iniNode with
  | .vDict _ =>
    match (iniNode.dget "arguments" (vList [])).asList with
    | a :: _ => nodeToStringH fuel a
    | [] => ""
  | _ => ""

/-- `HooksRules._infer_type`. -/
def inferType (v : String) : String :=
  if v == "" then "any"
  else if strStartsWith v "[" && strEndsWith v "]" then
    if strContainsSub (strToLower v) "string" || strStartsWith v "[\x27" then "string[]"
    else if strContainsSub (strToLower v) "number" then "number[]"
    else "any[]"
  else if strStartsWith v "\x22" || strStartsWith v "\x27" then "string"
  else if pyIsDigitStr (pyReplace v "." "") then "number"
  else if v == "true" || v == "false" then "boolean"
  else if v == "null" || v == "undefined" then "any"
  else "any"

/-- `HooksRules._parse_usestate`. -/
def parseUsestate (fuel : Nat) (decl : PyVal) : PyVal :=
  let idNode := decl.dget "id" (vDict [])
  let names : PyVal × PyVal :=
    if idNode.dget "type" vNone == vStr "ArrayPattern" then
      match (idNode.dget "elements" (vList [])).asList with
      | [] => (vStr "", vStr "")
      | [e0] => (e0.dget "name" (vStr ""), vStr "")
      | e0 :: e1 :: _ => (e0.dget "name" (vStr ""), e1.dget "name" (vStr ""))
    else (vStr "", vStr "")
  let ini := decl.dget "init" (vDict [])
  let initialValue := extractInitialValue fuel ini
  let valueType := inferType initialValue
  vDict [("type", vStr "useState"), ("stateName", names.1), ("setterName", names.2),
         ("initialValue", vStr initialValue), ("valueType", vStr valueType)]

mutual
/-- `HooksRules._find_hooks_in_body`. -/
def findHooksInBody : Nat → PyVal → List PyVal
  | 0, _ => []
  | fuel + 1, body =>
    match body with
    | .vList items => (items.map (fun it => findHooksInStatements fuel [it])).flatten
    | .vDict _ => findHooksInStatements fuel [body]
    | _ => []

/-- `HooksRules._find_hooks_in_statements`. -/
def findHooksInStatements : Nat → List PyVal → List PyVal
  | 0, _ => []
  | fuel + 1, stmts =>
    (stmts.map (fun stmt =>
      match stmt with
      | .vDict _ =>
        if stmt.dget "type" vNone == vStr "VariableDeclaration" then
          ((stmt.dget "declarations" (vList [])).asList.filter isUsestateCall).map
            (parseUsestate fuel)
        else if stmt.hasKey "body" then findHooksInBody fuel (stmt.dget "body" vNone)
        else []
      | _ => [])).flatten
end

/-- `HooksRules._find_hooks_in_component` (reachable only for ASTs with a
`components` key, which the parser never produces). -/
def findHooksInComponent (fuel : Nat) (ast : PyVal) : List PyVal :=
  if ast.hasKey "variables" then
    ((ast.dget "variables" vNone).asList.filter isUsestateCall).map (parseUsestate fuel)
  else []

/-- `HooksRules._extract_usestate_hooks`. -/
def extractUsestateHooks (fuel : Nat) (ast : PyVal) : List PyVal :=
  match ast with
  | .vDict _ =>
    if ast.hasKey "body" then findHooksInBody fuel (ast.dget "body" vNone)
    else if ast.hasKey "components" then findHooksInComponent fuel ast
    else if ast.hasKey "statements" then
      findHooksInStatements fuel (ast.dget "statements" vNone).asList
    else []
  | _ => []

/-- `HooksRules._transform_usestate`: append one property and register the
setter.  The direct `angular_ast["class"]["properties"].append` indexing is
modelled by `updateIfPresent` (a missing key would raise in Python). -/
def transformUsestate (hook ir : PyVal) : PyVal :=
  let stateName := hook.dget "stateName" (vStr "")
  let valueType := hook.dget "valueType" (vStr "any")
  let initialValue := hook.dget "initialValue" (vStr "")
  let setterName := hook.dget "setterName" (vStr "")
  if !stateName.truthy then ir
  else
    let propertyDef := vDict [("name", stateName), ("type", valueType),
                              ("initialValue", initialValue), ("decorator", vStr "")]
    let ir1 := ir.updateIfPresent "class" (fun c =>
      c.updateIfPresent "properties" (fun ps =>
        match ps with
        | .vList l => .vList (l ++ [propertyDef])
        | x => x))
    if setterName.truthy then
      match setterName with
      | .vStr s =>
        let ir2 := if ir1.hasKey "setterMappings" then ir1 else ir1.dset "setterMappings" (vDict [])
        ir2.updateIfPresent "setterMappings" (fun m => m.dset s stateName)
      | _ => ir1
    else ir1

/-- `HooksRules.transform`. -/
def hooksRulesTransform (fuel : Nat) (ast ir : PyVal) : PyVal :=
  (extractUsestateHooks fuel ast).foldl (fun acc h => transformUsestate h acc) ir

/-- `ComponentRules._node_to_string` (the block-statement case inlines
`_statements_to_string`, which joins with a four-space newline). -/
def nodeToStringC : Nat → PyVal → String
  | 0, node => pyStr node
  | fuel + 1, node =>
    match node with
    | .vDict _ =>
      let t := node.dget "type" (vStr "")
      if t == vStr "IfStatement" then
        let test := nodeToStringC fuel (node.dget "test" (vDict []))
        let consequent := nodeToStringC fuel (node.dget "consequent" (vDict []))
        let alternate := node.dget "alternate" vNone
        if alternate.truthy then
          "if (" ++ test ++ ") \x7b\n    " ++ consequent ++ "\n\x7d else \x7b\n    " ++
            nodeToStringC fuel alternate ++ "\n\x7d"
        else
          "if (" ++ test ++ ") \x7b\n    " ++ consequent ++ "\n\x7d"
      else if t == vStr "ExpressionStatement" then
        nodeToStringC fuel (node.dget "expression" (vDict []))
      else if t == vStr "CallExpression" then
        nodeToStringC fuel (node.dget "callee" (vDict [])) ++ "(" ++
          String.intercalate ", "
            ((node.dget "arguments" (vList [])).asList.map (nodeToStringC fuel)) ++ ")"
      else if t == vStr "MemberExpression" then
        nodeToStringC fuel (node.dget "object" (vDict [])) ++ "." ++
          nodeToStringC fuel (node.dget "property" (vDict []))
      else if t == vStr "Identifier" then pyStr (node.dget "name" (vStr ""))
      else if t == vStr "Literal" then pyRepr (node.dget "value" (vStr ""))
      else if t == vStr "ArrayExpression" then
        "[" ++ String.intercalate ", "
          ((node.dget "elements" (vList [])).asList.map (nodeToStringC fuel)) ++ "]"
      else if t == vStr "SpreadElement" then
        "..." ++ nodeToStringC fuel (node.dget "argument" (vDict []))
      else if t == vStr "BinaryExpression" then
        nodeToStringC fuel (node.dget "left" (vDict [])) ++ " " ++
          pyStr (node.dget "operator" (vStr "")) ++ " " ++
          nodeToStringC fuel (node.dget "right" (vDict []))
      else if t == vStr "BlockStatement" then
        String.intercalate "\n    "
          ((node.dget "body" (vList [])).asList.map (nodeToStringC fuel))
      else pyStr node
    | _ => pyStr node

/-- `ComponentRules._statements_to_string`. -/
def statementsToStringC (fuel : Nat) (stmts : List PyVal) : String :=
  String.intercalate "\n    " (stmts.map (nodeToStringC fuel))

/-- `ComponentRules._extract_method_body`. -/
def extractMethodBody (fuel : Nat) (bodyNode : PyVal) : String :=
  match bodyNode with
  | .vDict _ =>
    if bodyNode.dget "type" vNone == vStr "BlockStatement" then
      statementsToStringC fuel (bodyNode.dget "body" (vList [])).asList
    else nodeToStringC fuel bodyNode
  | _ => ""

/-- `ComponentRules._extract_parameters`. -/
def extractParameters (params : PyVal) : List PyVal :=
  params.asList.foldr
    (fun p acc =>
      match p with
      | .vDict _ =>
        let a := p.dget "name" (vStr "")
        let n := if a.truthy then a else (p.dget "id" (vDict [])).dget "name" (vStr "")
        if n.truthy then n :: acc else acc
      | .vStr s => vStr s :: acc
      | _ => acc)
    []

/-- `ComponentRules._parse_arrow_function` / `_parse_function_expression` /
`_parse_function_declaration` share one shape. -/
def parseNamedFunction (fuel : Nat) (name : PyVal) (funcNode : PyVal) : PyVal :=
  vDict [("name", name),
         ("parameters", vList (extractParameters (funcNode.dget "params" (vList [])))),
         ("body", vStr (extractMethodBody fuel (funcNode.dget "body" (vDict [])))),
         ("returnType", vStr "void")]

/-- `ComponentRules._parse_method` (only reachable through a `methods` key,
which the parser never produces). -/
def parseMethod (fuel : Nat) (m : PyVal) : PyVal :=
  vDict [("name", m.dget "name" (vStr "")),
         ("parameters", m.dget "parameters" (vList [])),
         ("body", vStr (extractMethodBody fuel m)),
         ("returnType", m.dget "returnType" (vStr "void"))]

mutual
/-- `ComponentRules._find_methods_in_body`. -/
def findMethodsInBody : Nat → PyVal → List PyVal
  | 0, _ => []
  | fuel + 1, body =>
    match body with
    | .vList items => (items.map (fun it => findMethodsInStatements fuel [it])).flatten
    | .vDict _ => findMethodsInStatements fuel [body]
    | _ => []

/-- `ComponentRules._find_methods_in_statements`. -/
def findMethodsInStatements : Nat → List PyVal → List PyVal
  | 0, _ => []
  | fuel + 1, stmts =>
    (stmts.map (fun stmt =>
      match stmt with
      | .vDict _ =>
        if stmt.dget "type" vNone == vStr "VariableDeclaration" then
          ((stmt.dget "declarations" (vList [])).asList.map (fun decl =>
            let ini := decl.dget "init" (vDict [])
            match ini with
            | .vDict _ =>
              if ini.dget "type" vNone == vStr "ArrowFunctionExpression" then
                let mname := (decl.dget "id" (vDict [])).dget "name" (vStr "")
                if mname.truthy then [parseNamedFunction fuel mname ini] else []
              else if ini.dget "type" vNone == vStr "FunctionExpression" then
                let mname := (decl.dget "id" (vDict [])).dget "name" (vStr "")
                if mname.truthy then [parseNamedFunction fuel mname ini] else []
              else []
            | _ => [])).flatten
        else if stmt.dget "type" vNone == vStr "FunctionDeclaration" then
          let mname := (stmt.dget "id" (vDict [])).dget "name" (vStr "")
          if mname.truthy then [parseNamedFunction fuel mname stmt] else []
        else if stmt.hasKey "body" then findMethodsInBody fuel (stmt.dget "body" vNone)
        else []
      | _ => [])).flatten
end

/-- `ComponentRules._extract_methods`. -/
def extractMethods (fuel : Nat) (ast : PyVal) : List PyVal :=
  match ast with
  | .vDict _ =>
    if ast.hasKey "body" then findMethodsInBody fuel (ast.dget "body" vNone)
    else if ast.hasKey "statements" then
      findMethodsInStatements fuel (ast.dget "statements" vNone).asList
    else if ast.hasKey "methods" then
      (ast.dget "methods" vNone).asList.map (parseMethod fuel)
    else []
  | _ => []

/-- `ComponentRules.transform`. -/
def componentRulesTransform (fuel : Nat) (ast ir : PyVal) : PyVal :=
  let ir1 :=
    if ast.hasKey "components" && (ast.dget "components" vNone).truthy then
      match (ast.dget "components" vNone).asList with
      | c :: _ => ir.updateIfPresent "class" (fun cl => cl.dset "name" c)
      | [] => ir
    else ir
  let ir2 :=
    if ast.hasKey "props" then
      (ast.dget "props" vNone).asList.foldl
        (fun acc prop =>
          acc.updateIfPresent "class" (fun cl =>
            cl.updateIfPresent "properties" (fun ps =>
              match ps with
              | .vList l => .vList (l ++ [vDict [("name", prop), ("type", vStr "Input"),
                                                ("decorator", vStr "@Input()")]])
              | x => x)))
        ir1
    else ir1
  (extractMethods fuel ast).foldl
    (fun acc m =>
      acc.updateIfPresent "class" (fun cl =>
        cl.updateIfPresent "methods" (fun ms =>
          match ms with
          | .vList l => .vList (l ++ [m])
          | x => x)))
    ir2

/-- `JSXRules._find_root_jsx`: prefer a JSXElement sitting in a
`ReturnStatement.argument`, otherwise scan values/items in order and
return the first truthy find (the Python `candidate` variable is never
assigned, so the function returns `None` when nothing matches). -/
def findRootJsx : Nat → PyVal → PyVal
  | 0, _ => vNone
  | fuel + 1, node =>
    match node with
    | .vDict fs =>
      let fromReturn : Option PyVal :=
        if node.dget "type" vNone == vStr "ReturnStatement" then
          let arg := node.dget "argument" vNone
          match arg with
          | .vDict _ => if arg.dget "type" vNone == vStr "JSXElement" then some arg else none
          | _ => none
        else none
      match fromReturn with
      | some a => a
      | none =>
        (fs.map Prod.snd).foldl
          (fun acc v => if acc.truthy then acc else findRootJsx fuel v) vNone
    | .vList items =>
      items.foldl (fun acc it => if acc.truthy then acc else findRootJsx fuel it) vNone
    | _ => vNone

/-- `JSXRules._expression_to_string`. -/
def expressionToString : Nat → PyVal → String
  | 0, _ => ""
  | fuel + 1, expr =>
    match expr with
    | .vDict _ =>
      let et := expr.dget "type" (vStr "")
      if et == vStr "Identifier" then pyStr (expr.dget "name" (vStr ""))
      else if et == vStr "Literal" then pyStr (expr.dget "value" (vStr ""))
      else if et == vStr "MemberExpression" then
        let obj := expressionToString fuel (expr.dget "object" vNone)
        let prop := expressionToString fuel (expr.dget "property" vNone)
        if obj != "" && prop != "" then obj ++ "." ++ prop
        else if obj != "" then obj else prop
      else if et == vStr "CallExpression" then
        let calleeNode := expr.dget "callee" vNone
        let calleeStr := if calleeNode.truthy then expressionToString fuel calleeNode else ""
        let args := (expr.dget "arguments" (vList [])).asList
        if !args.isEmpty then
          calleeStr ++ "(" ++ String.intercalate ", " (args.map (expressionToString fuel)) ++ ")"
        else calleeStr
      else if et == vStr "ArrowFunctionExpression" then
        let pnames := (expr.dget "params" (vList [])).asList.filterMap (fun p =>
          match p with
          | .vDict _ => some (pyStr (p.dget "name" (vStr "")))
          | _ => none)
        "(" ++ String.intercalate ", " pnames ++ ") => ..."
      else ""
    | _ => ""

/-- `JSXRules._extract_attribute_value`. -/
def extractAttributeValue (fuel : Nat) (val : PyVal) : String :=
  match val with
  | .vDict _ =>
    let vt := val.dget "type" vNone
    if vt == vStr "Literal" then pyStr (val.dget "value" (vStr ""))
    else if vt == vStr "JSXExpressionContainer" then
      expressionToString fuel (val.dget "expression" (vDict []))
    else ""
  | _ => ""

/-- `JSXRules._convert_attributes`: drop `key`, rename `className`, defer
`on*` attributes to the event rule, keep the rest as `{name, value}` pairs
(attribute names are strings for every parser shape; a non-string name
would raise at `name.startswith` in Python and is skipped here). -/
def convertAttributes (fuel : Nat) (attributes : PyVal) : List PyVal :=
  match attributes with
  | .vList l =>
    l.foldl
      (fun out attr =>
        match attr with
        | .vDict _ =>
          let nameNode := attr.dget "name" (vDict [])
          let valueNode := attr.dget "value" (vDict [])
          match nameNode with
          | .vDict _ =>
            (match nameNode.dget "name" (vStr "") with
             | .vStr s0 =>
               let s1 := if s0 == "className" then "class" else s0
               if s1 == "key" then out
               else if strStartsWith s1 "on" then out
               else out ++ [vDict [("name", vStr s1),
                                   ("value", vStr (extractAttributeValue fuel valueNode))]]
             | _ => out)
          | _ => out
        | _ => out)
      []
  | _ => []

/-- The `converted not in (None, "", [])` filter on converted children. -/
def keepChild (v : PyVal) : Bool :=
  !(pyBeq v vNone || pyBeq v (vStr "") || pyBeq v (vList []))

/-- First `ReturnStatement` in a block whose argument is a `JSXElement`
(the search loop inside `_convert_map_expression_to_element`). -/
def findReturnJsx : List PyVal → Option PyVal
  | [] => none
  | stmt :: rest =>
    match stmt with
    | .vDict _ =>
      if stmt.dget "type" vNone == vStr "ReturnStatement" then
        let cand := stmt.dget "argument" vNone
        match cand with
        | .vDict _ =>
          if cand.dget "type" vNone == vStr "JSXElement" then some cand
          else findReturnJsx rest
        | _ => findReturnJsx rest
      else findReturnJsx rest
    | _ => findReturnJsx rest

mutual
/-- `JSXRules._convert_jsx_to_angular`: one `Element` dict with exactly the
keys `type`, `tag`, `attributes`, `children`, in that insertion order. -/
def convertJsxToAngular : Nat → PyVal → PyVal
  | 0, _ => vNone
  | fuel + 1, jsxElement =>
    match jsxElement with
    | .vDict _ =>
      let opening := jsxElement.dget "openingElement" (vDict [])
      let children := jsxElement.dget "children" (vList [])
      let tag : PyVal :=
        match opening with
        | .vDict _ =>
          (match opening.dget "name" (vDict []) with
           | nd@(.vDict _) => nd.dget "name" (vStr "")
           | _ => vStr "")
        | _ => vStr ""
      let attrs := convertAttributes fuel (opening.dget "attributes" (vList []))
      let convertedChildren : List PyVal :=
        match children with
        | .vList items => (items.map (convertChild fuel)).filter keepChild
        | _ => []
      vDict [("type", vStr "Element"),
             ("tag", if tag.truthy then tag else vStr "div"),
             ("attributes", vList attrs),
             ("children", vList convertedChildren)]
    | _ => vNone

/-- `JSXRules._convert_child`. -/
def convertChild : Nat → PyVal → PyVal
  | 0, _ => vNone
  | fuel + 1, child =>
    match child with
    | .vStr s => vStr (pyStrip s)
    | .vDict _ =>
      let ct := child.dget "type" vNone
      if ct == vStr "JSXText" then
        vStr (pyStrip ((child.dget "value" (vStr "")).asStrOr ""))
      else if ct == vStr "JSXExpressionContainer" then
        let expr := child.dget "expression" (vDict [])
        match expr with
        | .vDict _ =>
          let isMapCall :=
            if expr.dget "type" vNone == vStr "CallExpression" then
              let callee := expr.dget "callee" (vDict [])
              match callee with
              | .vDict _ =>
                if callee.dget "type" vNone == vStr "MemberExpression" then
                  let prop := callee.dget "property" (vDict [])
                  match prop with
                  | .vDict _ => prop.dget "name" vNone == vStr "map"
                  | _ => false
                else false
              | _ => false
            else false
          if isMapCall then convertMapExpressionToElement fuel expr
          else vStr ("\x7b\x7b " ++ expressionToString fuel expr ++ " \x7d\x7d")
        | _ => vStr ""
      else if ct == vStr "JSXElement" then convertJsxToAngular fuel child
      else vNone
    | _ => vNone

/-- `JSXRules._convert_map_expression_to_element`: the converted inner
element gets an `ngFor` key appended; when the callback body cannot be
reduced to markup, the fallback `li` "placeholder" element is produced. -/
def convertMapExpressionToElement : Nat → PyVal → PyVal
  | 0, _ => vNone
  | fuel + 1, expr =>
    match expr with
    | .vDict _ =>
      let callee := expr.dget "callee" (vDict [])
      let arrayName : PyVal :=
        match callee with
        | .vDict _ =>
          (match callee.dget "object" (vDict []) with
           | od@(.vDict _) => od.dget "name" (vStr "")
           | _ => vStr "")
        | _ => vStr ""
      let args := expr.dget "arguments" (vList [])
      if !args.truthy then vNone
      else
        match args.asList with
        | fn :: _ =>
          match fn with
          | .vDict _ =>
            let params := fn.dget "params" (vList [])
            let itemName : PyVal :=
              match params.asList with
              | p0 :: _ =>
                (match p0 with
                 | .vDict _ => p0.dget "name" (vStr "item")
                 | _ => vStr "item")
              | [] => vStr "item"
            let indexName : PyVal :=
              match params.asList with
              | _ :: p1 :: _ =>
                (match p1 with
                 | .vDict _ => p1.dget "name" (vStr "index")
                 | _ => vStr "index")
              | _ => vStr "index"
            let body := fn.dget "body" vNone
            let jsxBody : Option PyVal :=
              match body with
              | .vDict _ =>
                if body.dget "type" vNone == vStr "JSXElement" then some body
                else if body.dget "type" vNone == vStr "BlockStatement" then
                  findReturnJsx (body.dget "body" (vList [])).asList
                else none
              | _ => none
            let ngFor := vDict [("array", arrayName), ("item", itemName), ("index", indexName)]
            match jsxBody with
            | none =>
              vDict [("type", vStr "Element"), ("tag", vStr "li"),
                     ("attributes", vList []), ("ngFor", ngFor),
                     ("children", vList [vStr ("\x7b\x7b " ++ pyStr itemName ++ " \x7d\x7d")])]
            | some jb => (convertJsxToAngular fuel jb).dset "ngFor" ngFor
          | _ => vNone
        | [] => vNone
    | _ => vNone
end

/-- `JSXRules.transform`. -/
def jsxRulesTransform (fuel : Nat) (ast ir : PyVal) : PyVal :=
  let root := findRootJsx fuel ast
  if !root.truthy then ir
  else
    let converted := convertJsxToAngular fuel root
    if converted.truthy then
      ir.updateIfPresent "template" (fun t =>
        t.updateIfPresent "elements" (fun es =>
          match es with
          | .vList l => .vList (l ++ [converted])
          | x => x))
    else ir

/-- `EventRules.EVENT_PREFIX_MAP`. -/
def eventPrefixMap : List (String × String) :=
  [("onClick", "click"), ("onChange", "change"), ("onSubmit", "submit"),
   ("onFocus", "focus"), ("onBlur", "blur")]

/-- `EventRules._transform_event`. -/
def transformEvent (reactEvent : String) : String :=
  match lookupStr eventPrefixMap reactEvent with
  | some v => "(" ++ v ++ ")"
  | none =>
    if strStartsWith reactEvent "on" then "(" ++ strToLower (reactEvent.drop 2) ++ ")"
    else reactEvent

/-- `EventRules._collect_jsx_nodes`: every dict with `type == "JSXElement"`
in preorder; values of dicts are visited in insertion order and only
dict/list values are recursed into. -/
def collectJsxNodes : Nat → PyVal → List PyVal
  | 0, _ => []
  | fuel + 1, node =>
    match node with
    | .vDict fs =>
      (if node.dget "type" vNone == vStr "JSXElement" then [node] else []) ++
        (fs.map Prod.snd).foldl
          (fun acc v =>
            match v with
            | .vDict _ => acc ++ collectJsxNodes fuel v
            | .vList _ => acc ++ collectJsxNodes fuel v
            | _ => acc)
          []
    | .vList items => items.foldl (fun acc it => acc ++ collectJsxNodes fuel it) []
    | _ => []

/-- `EventRules._normalize_attribute_value`. -/
def normalizeAttributeValue (raw : PyVal) : PyVal :=
  match raw with
  | .vDict _ =>
    if raw.dget "type" vNone == vStr "JSXExpressionContainer" && raw.hasKey "expression" then
      raw.dget "expression" vNone
    else raw
  | _ => raw

/-- `EventRules._ast_to_string`.  Note the missing `BinaryExpression` case:
unknown node kinds fall back to Python `str(node)`, i.e. the dict repr. -/
def astToStringE : Nat → PyVal → String
  | 0, node => pyStr node
  | fuel + 1, node =>
    match node with
    | .vDict _ =>
      let t := node.dget "type" (vStr "")
      if t == vStr "CallExpression" then
        astToStringE fuel (node.dget "callee" (vDict [])) ++ "(" ++
          String.intercalate ", "
            ((node.dget "arguments" (vList [])).asList.map (astToStringE fuel)) ++ ")"
      else if t == vStr "MemberExpression" then
        astToStringE fuel (node.dget "object" (vDict [])) ++ "." ++
          astToStringE fuel (node.dget "property" (vDict []))
      else if t == vStr "Identifier" then pyStr (node.dget "name" (vStr ""))
      else if t == vStr "Literal" then pyRepr (node.dget "value" (vStr ""))
      else if t == vStr "ArrowFunctionExpression" then
        "(" ++ String.intercalate ", "
            ((node.dget "params" (vList [])).asList.map (fun p => pyStr (p.dget "name" (vStr "")))) ++
          ") => " ++ astToStringE fuel (node.dget "body" (vDict []))
      else if t == vStr "JSXExpressionContainer" && node.hasKey "expression" then
        astToStringE fuel (node.dget "expression" vNone)
      else pyStr node
    | _ => pyStr node

/-- `EventRules._transform_arrow_function_ast`.  The setter map is carried
as the raw field list of the `setterMappings` dict. -/
def transformArrowFunctionAstE (fuel : Nat) (arrowFunc : PyVal)
    (setters : List (String × PyVal)) : String :=
  let params := arrowFunc.dget "params" (vList [])
  let body := arrowFunc.dget "body" (vDict [])
  let eventParam : String :=
    match params.asList with
    | p :: _ => (p.dget "name" (vStr "e")).asStrOr "e"
    | [] => "e"
  let setterHit : Option String :=
    match body with
    | .vDict _ =>
      if body.dget "type" vNone == vStr "CallExpression" then
        let callee := body.dget "callee" (vDict [])
        if callee.dget "type" vNone == vStr "Identifier" then
          match callee.dget "name" (vStr "") with
          | .vStr sn =>
            (match lookupKey setters sn with
             | some stateName =>
               let args := (body.dget "arguments" (vList [])).asList
               (match args with
                | first :: _ =>
                  if first.dget "type" vNone == vStr "MemberExpression" then
                    some (pyStr stateName ++ " = $event.target.value")
                  else if first.dget "type" vNone == vStr "Identifier" then
                    some (pyStr stateName ++ " = $event")
                  else
                    some (pyStr stateName ++ " = " ++ astToStringE fuel first)
                | [] => some (pyStr stateName ++ " = "))
             | none => none)
          | _ => none
        else none
      else none
    | _ => none
  match setterHit with
  | some s => s
  | none => pyReplace (astToStringE fuel body) eventParam "$event"

/-- The setter scan at the end of `_transform_arrow_function_handler`:
first mapped setter occurring in the expression when a `.value` shape is
also present. -/
def firstValueSetter : List (String × PyVal) → String → Option String
  | [], _ => none
  | (sn, st) :: rest, expr =>
    if strContainsSub expr sn &&
        (strContainsSub expr ".target.value" || strContainsSub expr ".value") then
      some (pyStr st)
    else firstValueSetter rest expr

/-- `EventRules._transform_arrow_function_handler` (the string-handler
path; both regex searches are modelled by the scanners above). -/
def transformArrowFunctionHandlerE (handlerStr : String)
    (setters : List (String × PyVal)) : String :=
  let pattern2 : String :=
    match searchArrow2 (handlerStr.length + 1) handlerStr.data with
    | some pe =>
      let expression := pyReplace (pyStrip pe.2) pe.1 "$event"
      (match firstValueSetter setters expression with
       | some st => st ++ " = $event.target.value"
       | none => expression)
    | none => handlerStr
  match searchArrow1 (handlerStr.length + 1) handlerStr.data with
  | some pr =>
    (match lookupKey setters pr.2 with
     | some st => pyStr st ++ " = $event.target.value"
     | none => pattern2)
  | none => pattern2

/-- `EventRules._transform_handler`. -/
def transformHandlerE : Nat → PyVal → List (String × PyVal) → String
  | 0, hv, _ => pyStr hv
  | fuel + 1, hv, setters =>
    match hv with
    | .vDict _ =>
      let nt := hv.dget "type" (vStr "")
      if nt == vStr "ArrowFunctionExpression" then
        transformArrowFunctionAstE fuel hv setters
      else if nt == vStr "Identifier" then pyStr (hv.dget "name" (vStr "")) ++ "()"
      else if nt == vStr "CallExpression" then astToStringE fuel hv
      else if nt == vStr "JSXExpressionContainer" && hv.hasKey "expression" then
        transformHandlerE fuel (hv.dget "expression" vNone) setters
      else astToStringE fuel hv
    | .vStr s =>
      if strContainsSub s "=>" then transformArrowFunctionHandlerE s setters
      else
        let stripped := pyStrip s
        if strContainsSub stripped "(" && strContainsSub stripped ")" then stripped
        else stripped ++ "()"
    | _ => pyStr hv

/-- The `value`/`onChange` attribute scan of `_detect_two_way_binding`:
the loop keeps reassigning, so the last matching attribute wins. -/
def findAttrNamed (attrs : List PyVal) (nm : String) : Option PyVal :=
  attrs.foldl
    (fun acc a => if a.dget "name" vNone == vStr nm then some a else acc)
    none

/-- The first string-form setter match in `_detect_two_way_binding`. -/
def firstStringSetter (ocs : String) (stateName : PyVal) :
    List (String × PyVal) → Option PyVal
  | [] => none
  | (sn, mapped) :: rest =>
    if strContainsSub ocs sn && pyBeq mapped stateName &&
        (strContainsSub ocs "target.value" || strContainsSub ocs ".value") then
      some (vDict [("property", stateName), ("value", stateName)])
    else firstStringSetter ocs stateName rest

/-- The direct string-reference setter match in `_detect_two_way_binding`. -/
def firstDirectSetter (ocs : String) (stateName : PyVal) :
    List (String × PyVal) → Option PyVal
  | [] => none
  | (sn, mapped) :: rest =>
    if pyStrip ocs == sn && pyBeq mapped stateName then
      some (vDict [("property", stateName), ("value", stateName)])
    else firstDirectSetter ocs stateName rest

/-- `EventRules._detect_two_way_binding`. -/
def detectTwoWayBinding (attrs : List PyVal) (setters : List (String × PyVal)) :
    Option PyVal :=
  let valueAttr := findAttrNamed attrs "value"
  let onChangeAttr := findAttrNamed attrs "onChange"
  match valueAttr, onChangeAttr with
  | some va, some oca =>
    if !va.truthy || !oca.truthy then none
    else
      let valueVal := normalizeAttributeValue (va.dget "value" vNone)
      let onChangeVal := normalizeAttributeValue (oca.dget "value" vNone)
      let stateName : PyVal :=
        match valueVal with
        | .vDict _ =>
          if valueVal.dget "type" vNone == vStr "Identifier" then valueVal.dget "name" vNone
          else vNone
        | .vStr s => vStr s
        | _ => vNone
      let fromAst : Option PyVal :=
        match onChangeVal with
        | .vDict _ =>
          let arrowHit : Option PyVal :=
            if onChangeVal.dget "type" vNone == vStr "ArrowFunctionExpression" then
              let body := onChangeVal.dget "body" vNone
              match body with
              | .vDict _ =>
                if body.dget "type" vNone == vStr "CallExpression" then
                  let callee := body.dget "callee" (vDict [])
                  if callee.dget "type" vNone == vStr "Identifier" then
                    match callee.dget "name" vNone with
                    | .vStr sn =>
                      (match lookupKey setters sn with
                       | some mapped =>
                         if pyBeq mapped stateName then
                           some (vDict [("property", stateName), ("value", stateName)])
                         else none
                       | none => none)
                    | _ => none
                  else none
                else none
              | _ => none
            else none
          (match arrowHit with
           | some r => some r
           | none =>
             if onChangeVal.dget "type" vNone == vStr "Identifier" then
               match onChangeVal.dget "name" vNone with
               | .vStr sid =>
                 (match lookupKey setters sid with
                  | some mapped =>
                    if pyBeq mapped stateName then
                      some (vDict [("property", stateName), ("value", stateName)])
                    else none
                  | none => none)
               | _ => none
             else none)
        | _ => none
      match fromAst with
      | some r => some r
      | none =>
        match onChangeVal with
        | .vStr ocs =>
          (match firstStringSetter ocs stateName setters with
           | some r => some r
           | none => firstDirectSetter ocs stateName setters)
        | _ => none
  | _, _ => none

/-- `setdefault("template", {}).setdefault("bindings", []).append(b)`:
append one binding, creating the containers when the keys are absent
(Python would raise when an existing value has the wrong type; both spots
are unreachable for the pipeline-produced IR). -/
def appendTemplateBinding (ir b : PyVal) : PyVal :=
  match ir with
  | .vDict fs =>
    match lookupKey fs "template" with
    | none => .vDict (fs ++ [("template", vDict [("bindings", vList [b])])])
    | some (.vDict tfs) =>
      (match lookupKey tfs "bindings" with
       | none => .vDict (setKey fs "template" (.vDict (tfs ++ [("bindings", vList [b])])))
       | some (.vList bs) =>
         .vDict (setKey fs "template" (.vDict (setKey tfs "bindings" (.vList (bs ++ [b])))))
       | some _ => ir)
    | some _ => ir
  | _ => ir

/-- One attribute of the event-conversion loop in `EventRules.transform`:
skip non-string and non-`on*` names, otherwise append one event binding
built from the transformed event name and handler. -/
def processEventAttr (fuel : Nat) (setters : List (String × PyVal))
    (acc attr : PyVal) : PyVal :=
  match attr.dget "name" (vStr "") with
  | .vStr s =>
    if !(strStartsWith s "on") || s.length ≤ 2 then acc
    else
      appendTemplateBinding acc
        (vDict [("type", vStr "event"), ("name", vStr (transformEvent s)),
                ("handler", vStr (transformHandlerE fuel
                  (normalizeAttributeValue (attr.dget "value" (vStr ""))) setters))])
  | _ => acc

/-- One JSX node of the `EventRules.transform` loop: fuse a two-way
binding, or convert each `on*` attribute into an event binding. -/
def processJsxNode (fuel : Nat) (setters : List (String × PyVal))
    (jsxElement ir : PyVal) : PyVal :=
  let a := jsxElement.dget "attributes" (vList [])
  let attrs := (if a.truthy then a else vList []).asList
  match detectTwoWayBinding attrs setters with
  | some twb =>
    appendTemplateBinding ir
      (vDict [("type", vStr "twoWay"), ("property", twb.dget "property" vNone),
              ("value", twb.dget "value" vNone)])
  | none =>
    attrs.foldl (processEventAttr fuel setters) ir

/-- `EventRules.transform`. -/
def eventRulesTransform (fuel : Nat) (ast ir : PyVal) : PyVal :=
  let g := ir.dget "setterMappings" (vDict [])
  let settersVal := if g.truthy then g else vDict []
  let setters : List (String × PyVal) :=
    match settersVal with
    | .vDict fs => fs
    | _ => []
  let jsxNodes : List PyVal :=
    match ast with
    | .vDict _ =>
      (match ast.dgetOpt "jsx_elements" with
       | some (.vList l) => l
       | _ =>
         match ast.dgetOpt "jsx" with
         | some (.vList l) => l
         | _ => collectJsxNodes fuel ast)
    | _ => []
  jsxNodes.foldl (fun acc node => processJsxNode fuel setters node acc) ir

/-- The empty Angular AST built at the top of `ASTTransformer.transform`. -/
def initAngularAst : PyVal :=
  vDict [("type", vStr "AngularComponent"),
         ("class", vDict [("name", vStr ""), ("properties", vList []),
                          ("methods", vList []), ("lifecycleHooks", vList [])]),
         ("template", vDict [("elements", vList []), ("bindings", vList [])]),
         ("styles", vList [])]

/-- `ASTTransformer._find_component_function`: first dict in preorder with
`type == "FunctionDeclaration"`, scanning dict values in insertion order. -/
def findComponentFunction : Nat → PyVal → PyVal
  | 0, _ => vNone
  | fuel + 1, node =>
    match node with
    | .vDict fs =>
      if node.dget "type" vNone == vStr "FunctionDeclaration" then node
      else
        (fs.map Prod.snd).foldl
          (fun acc v => if acc.truthy then acc else findComponentFunction fuel v) vNone
    | .vList items =>
      items.foldl (fun acc it => if acc.truthy then acc else findComponentFunction fuel it) vNone
    | _ => vNone

/-- `ASTTransformer.transform`: build the empty IR, find the component
function, and on success run the four rules in the fixed order hooks →
component → jsx → event, each over the shared IR. -/
def astTransform (fuel : Nat) (reactAst : PyVal) : PyVal :=
  let fn := findComponentFunction fuel reactAst
  if pyBeq fn vNone then initAngularAst
  else
    eventRulesTransform fuel fn
      (jsxRulesTransform fuel fn
        (componentRulesTransform fuel fn
          (hooksRulesTransform fuel fn initAngularAst)))

/-! ## Generators

Translations of `css_generator.py`, `html_generator.py` and
`typescript_generator.py`.  The HTML generator is modelled as a pure text
function (its translation contains no assignment into the AST, mirroring
the source); the TypeScript generator returns both its text and the state
of the AST after the call, because `generate` writes normalized method
bodies back through the shared method dicts (`method["body"] = ...`). -/

/-- Body of `CSSGenerator.generate` after the `styles` extraction (the
generator reads nothing of the AST beyond this list), with
`_generate_rule` inlined per style. -/
def cssGenerateFromStyles (styles : PyVal) (componentName : String) : String :=
  if !styles.truthy then "/* Styles for " ++ componentName ++ " component */\n"
  else
    String.intercalate "\n" (styles.asList.map (fun style =>
      let selector := style.dget "selector" (vStr "")
      let rules := style.dget "rules" (vDict [])
      match rules with
      | .vDict rfs =>
        if rfs.isEmpty then ""
        else
          String.intercalate "\n"
            ([pyStr selector ++ " \x7b"] ++
             rfs.map (fun kv => "  " ++ kv.1 ++ ": " ++ pyStr kv.2 ++ ";") ++
             ["\x7d"])
      | _ => ""))

/-- `CSSGenerator.generate`. -/
def cssGenerate (ir : PyVal) (componentName : String) : String :=
  cssGenerateFromStyles (ir.dget "styles" (vList [])) componentName

/-- The `element_id` scan of `HTMLGenerator._get_element_bindings`: first
attribute named `id` (the loop breaks on the first hit). -/
def firstIdAttr : List PyVal → PyVal
  | [] => vNone
  | a :: rest =>
    if a.dget "name" vNone == vStr "id" then a.dget "value" vNone else firstIdAttr rest

/-- `HTMLGenerator._get_element_bindings`: a binding with a truthy target
applies only when it equals the element's `id` attribute; an untargeted
binding applies to every element. -/
def getElementBindings (element : PyVal) (bindings : List PyVal) : List String :=
  let elementId := firstIdAttr (element.dget "attributes" (vList [])).asList
  bindings.foldl
    (fun strs binding =>
      let btype := binding.dget "type" (vStr "")
      let target := binding.dget "target" vNone
      if target.truthy && !(pyBeq target elementId) then strs
      else if btype == vStr "event" then
        strs ++ ["(" ++ pyStr (binding.dget "name" (vStr "")) ++ ")=\x22" ++
                 pyStr (binding.dget "handler" (vStr "")) ++ "\x22"]
      else if btype == vStr "property" then
        strs ++ ["[" ++ pyStr (binding.dget "name" (vStr "")) ++ "]=\x22" ++
                 pyStr (binding.dget "value" (vStr "")) ++ "\x22"]
      else if btype == vStr "twoWay" then
        let propName := binding.dget "property" (vStr "")
        if propName.truthy then strs ++ ["[(ngModel)]=\x22" ++ pyStr propName ++ "\x22"]
        else strs
      else strs)
    []

/-- `HTMLGenerator._generate_element`.  Non-dict entries in a children
list (the literal strings the JSX rule produces) make Python raise
`AttributeError` at `element.get`; the model renders them as empty text —
no theorem below evaluates the generator on such an input. -/
def generateElement : Nat → PyVal → List PyVal → String
  | 0, _, _ => ""
  | fuel + 1, element, bindings =>
    match element with
    | .vDict _ =>
      let tag := element.dget "tag" (vStr "div")
      let attributes := (element.dget "attributes" (vList [])).asList
      let children := element.dget "children" (vStr "")
      let ngFor := element.dget "ngFor" vNone
      let ngIf := element.dget "ngIf" vNone
      let twoWay := element.dget "twoWayBinding" vNone
      let propertyBinding := element.dget "propertyBinding" vNone
      let indent := element.dget "indent" (vInt 0)
      let parts :=
        (if ngFor.truthy then
          ["*ngFor=\x22let " ++ pyStr (ngFor.dget "item" (vStr "item")) ++ " of " ++
           pyStr (ngFor.dget "array" (vStr "items")) ++ "; let " ++
           pyStr (ngFor.dget "index" (vStr "i")) ++ " = index\x22"]
         else []) ++
        (if ngIf.truthy then ["*ngIf=\x22" ++ pyStr ngIf ++ "\x22"] else []) ++
        (if twoWay.truthy then ["[(ngModel)]=\x22" ++ pyStr twoWay ++ "\x22"] else []) ++
        (if propertyBinding.truthy then
          match propertyBinding with
          | .vDict pfs => pfs.map (fun kv => "[" ++ kv.1 ++ "]=\x22" ++ pyStr kv.2 ++ "\x22")
          | _ => []
         else []) ++
        attributes.foldl
          (fun acc attr =>
            let name := attr.dget "name" (vStr "")
            let value := attr.dget "value" (vStr "")
            let btype := attr.dget "bindingType" vNone
            if name == vStr "value" && twoWay.truthy then acc
            else if btype == vStr "property" then
              acc ++ ["[" ++ pyStr name ++ "]=\x22" ++ pyStr value ++ "\x22"]
            else if btype == vStr "event" then
              acc ++ ["(" ++ pyStr name ++ ")=\x22" ++ pyStr value ++ "\x22"]
            else if btype == vStr "twoWay" then
              acc ++ ["[(" ++ pyStr name ++ ")]=\x22" ++ pyStr value ++ "\x22"]
            else if value.truthy then acc ++ [pyStr name ++ "=\x22" ++ pyStr value ++ "\x22"]
            else acc ++ [pyStr name])
          [] ++
        getElementBindings element bindings
      let attrStr := if parts.isEmpty then "" else " " ++ String.intercalate " " parts
      let indentStr :=
        match indent with
        | .vInt n => String.join (List.replicate n.toNat "  ")
        | _ => ""
      if children.truthy then
        match children with
        | .vList items =>
          indentStr ++ "<" ++ pyStr tag ++ attrStr ++ ">\n" ++
            String.intercalate "\n" (items.map (fun c => generateElement fuel c bindings)) ++
            "\n" ++ indentStr ++ "</" ++ pyStr tag ++ ">"
        | _ =>
          indentStr ++ "<" ++ pyStr tag ++ attrStr ++ ">" ++ pyStr children ++
            "</" ++ pyStr tag ++ ">"
      else
        match tag with
        | .vStr s =>
          if ["input", "img", "br", "hr", "meta", "link"].contains s then
            indentStr ++ "<" ++ s ++ attrStr ++ ">"
          else indentStr ++ "<" ++ s ++ attrStr ++ "></" ++ s ++ ">"
        | _ => indentStr ++ "<" ++ pyStr tag ++ attrStr ++ "></" ++ pyStr tag ++ ">"
    | _ => ""

/-- Body of `HTMLGenerator.generate` after the `template` extraction (the
generator reads nothing of the AST beyond this dict). -/
def htmlGenerateFromTemplate (fuel : Nat) (template : PyVal) : String :=
  let elements := template.dget "elements" (vList [])
  let bindings := (template.dget "bindings" (vList [])).asList
  if !elements.truthy then
    "<!-- Generated Angular template -->\n<div class=\x22container\x22>\n  <!-- Add your template content here -->\n</div>"
  else
    String.intercalate "\n" (elements.asList.map (fun e => generateElement fuel e bindings))

/-- `HTMLGenerator.generate` (the component name only feeds a log line). -/
def htmlGenerate (fuel : Nat) (ir : PyVal) (_componentName : String) : String :=
  htmlGenerateFromTemplate fuel (ir.dget "template" (vDict []))

/-- `TypeScriptGenerator._normalize_method_body`: setter-call rewrites,
`this.` prefixing, trailing-semicolon insertion, and the defensive
`this.this.` collapse.  `_prefix_this_to_identifiers` is shared with the
setter-rewrite replacement callbacks. -/
def normalizeMethodBody (body : String) (propNames : List String)
    (setters : List (String × String)) : String :=
  if body == "" then ""
  else
    let n1 := applySetterSubs propNames setters body
    let n2 := prefixThisToIdentifiers n1 propNames
    let lines := (pySplitlines n2).map (fun ln => pyRstrip ln)
    let cleanLines := lines.map (fun ln =>
      if ln != "" && !(strEndsWith (pyStrip ln) ";") && !(strEndsWith (pyStrip ln) "\x7b") &&
          !(strEndsWith (pyStrip ln) "\x7d") then ln ++ ";"
      else ln)
    pyReplace (String.intercalate "\n" cleanLines) "this.this." "this."

/-- The setter map as `(setter, str(state))` pairs for the normalizer
(state names are strings for every pipeline-produced IR; a non-string
state would raise inside `re.escape` in Python). -/
def settersAsStrings (ir : PyVal) : List (String × String) :=
  match ir.dget "setterMappings" (vDict []) with
  | .vDict fs => fs.map (fun kv => (kv.1, pyStr kv.2))
  | _ => []

/-- `TypeScriptGenerator._extract_auto_properties`: properties implied by
two-way bindings, element-level `twoWayBinding` marks and `ngFor` arrays,
deduplicated through the `seen` set in discovery order. -/
def tsExtractAutoProperties (ir : PyVal) : List PyVal :=
  let template := ir.dget "template" (vDict [])
  let elements := (template.dget "elements" (vList [])).asList
  let bindings := (template.dget "bindings" (vList [])).asList
  let step1 := bindings.foldl
    (fun (acc : List PyVal × List PyVal) b =>
      if b.dget "type" vNone == vStr "twoWay" then
        let name := b.dget "property" vNone
        if name.truthy && !(acc.2.contains name) then
          (acc.1 ++ [vDict [("name", name), ("type", vStr "string"),
                            ("initialValue", vStr "\x27\x27"), ("decorator", vStr "")]],
           acc.2 ++ [name])
        else acc
      else acc)
    ([], [])
  let step2 := elements.foldl
    (fun (acc : List PyVal × List PyVal) el =>
      let acc1 :=
        let name := el.dget "twoWayBinding" vNone
        if name.truthy && !(acc.2.contains name) then
          (acc.1 ++ [vDict [("name", name), ("type", vStr "string"),
                            ("initialValue", vStr "\x27\x27"), ("decorator", vStr "")]],
           acc.2 ++ [name])
        else acc
      let ngfor := el.dget "ngFor" vNone
      if ngfor.truthy then
        let arrayName : PyVal :=
          match ngfor with
          | .vDict _ => ngfor.dget "array" vNone
          | .vStr s =>
            (match searchOfWord (s.length + 1) s.data with
             | some w => vStr w
             | none => vNone)
          | _ => vNone
        if arrayName.truthy && !(acc1.2.contains arrayName) then
          (acc1.1 ++ [vDict [("name", arrayName), ("type", vStr "any[]"),
                             ("initialValue", vStr "[]"), ("decorator", vStr "")]],
           acc1.2 ++ [arrayName])
        else acc1
      else acc1)
    step1
  step2.1

/-- `TypeScriptGenerator._extract_auto_methods`: one placeholder method
per distinct event-handler callee name. -/
def tsExtractAutoMethods (ir : PyVal) : List PyVal :=
  let bindings := ((ir.dget "template" (vDict [])).dget "bindings" (vList [])).asList
  (bindings.foldl
    (fun (acc : List PyVal × List String) b =>
      if b.dget "type" vNone == vStr "event" then
        let handler := b.dget "handler" (vStr "")
        if handler.truthy then
          match handler with
          | .vStr h =>
            let mname := pyStrip ((pySplitOn h "(").headD "")
            if mname != "" && !(acc.2.contains mname) then
              (acc.1 ++ [vDict [("name", vStr mname), ("parameters", vList []),
                                ("body", vStr "// TODO: implement handler")]],
               acc.2 ++ [mname])
            else acc
          | _ => acc
        else acc
      else acc)
    ([], [])).1

/-- `TypeScriptGenerator._merge_properties`. -/
def tsMergeProperties (explicit auto : List PyVal) : List PyVal :=
  let explicitNames := explicit.foldl
    (fun acc p => let n := p.dget "name" vNone; if n.truthy then acc ++ [n] else acc) []
  explicit ++ auto.filter (fun p => !(explicitNames.contains (p.dget "name" vNone)))

/-- `TypeScriptGenerator._merge_methods`. -/
def tsMergeMethods (explicit auto : List PyVal) : List PyVal :=
  let explicitNames := explicit.foldl
    (fun acc m => let n := m.dget "name" vNone; if n.truthy then acc ++ [n] else acc) []
  explicit ++ auto.filter (fun m => !(explicitNames.contains (m.dget "name" vNone)))

/-- `TypeScriptGenerator._generate_imports`. -/
def tsGenerateImports (properties : List PyVal) (ir : PyVal)
    (lifecycleHooks : List PyVal) : String :=
  let hasInput := properties.any
    (fun p => strStartsWith (pyStrip (pyStr (p.dget "decorator" (vStr "")))) "@Input")
  let hasOutput := properties.any
    (fun p => strStartsWith (pyStrip (pyStr (p.dget "decorator" (vStr "")))) "@Output")
  let core :=
    ["Component"] ++
    (if hasInput then ["Input"] else []) ++
    (if hasOutput then ["Output", "EventEmitter"] else []) ++
    (if !lifecycleHooks.isEmpty then
      (if lifecycleHooks.any (fun h => h.dget "name" vNone == vStr "ngOnInit") then
        ["OnInit"] else []) ++
      (if lifecycleHooks.any (fun h => h.dget "name" vNone == vStr "ngOnDestroy") then
        ["OnDestroy"] else [])
     else [])
  let importLine := "import \x7b " ++
    String.intercalate ", " (sortStringsAsc (dedupFirst core)) ++
    " \x7d from \x27@angular/core\x27;"
  let template := ir.dget "template" (vDict [])
  let bindings := (template.dget "bindings" (vList [])).asList
  let hasTwoWay := bindings.any (fun b => b.dget "type" vNone == vStr "twoWay") ||
    (template.dget "elements" (vList [])).asList.any
      (fun el => (el.dget "twoWayBinding" vNone).truthy)
  if hasTwoWay then
    String.intercalate "\n"
      [importLine, "",
       "// NOTE: Add FormsModule to your module's imports array for [(ngModel)] to work"]
  else importLine

/-- `TypeScriptGenerator._generate_decorator`. -/
def tsGenerateDecorator (componentName : String) : String :=
  "@Component(\x7b\n  selector: \x27app-" ++ to_camel_case componentName ++
    "\x27,\n  templateUrl: \x27./" ++ componentName ++
    ".component.html\x27,\n  styleUrls: [\x27./" ++ componentName ++
    ".component.css\x27]\n\x7d)"

/-- `TypeScriptGenerator._generate_properties`. -/
def tsGenerateProperties (properties : List PyVal) : String :=
  if properties.isEmpty then ""
  else
    String.intercalate "\n"
      ((properties.map (fun p =>
        let name := p.dget "name" (vStr "")
        let ptype0 := p.dget "type" (vStr "any")
        let ptype := if ptype0 == vStr "state" then vStr "any" else ptype0
        let i1 := p.dget "initialValue" vNone
        let i2 := if i1.truthy then i1 else p.dget "initial" vNone
        let i3 := if i2.truthy then i2 else p.dget "initialValue" (vStr "")
        let decorator := p.dget "decorator" (vStr "")
        (if decorator.truthy then ["  " ++ pyStr decorator] else []) ++
        ["  " ++ pyStr name ++ ": " ++ pyStr ptype ++
         (if i3.truthy then " = " ++ pyStr i3 else "") ++ ";"])).flatten) ++ "\n"

/-- `TypeScriptGenerator._generate_lifecycle_hooks`. -/
def tsGenerateLifecycle (hooks : List PyVal) : String :=
  if hooks.isEmpty then ""
  else
    String.intercalate "\n" (hooks.map (fun h =>
      "  " ++ pyStr (h.dget "name" vNone) ++ "(): void \x7b\n    " ++
        pyStr (h.dget "body" (vStr "// TODO: implement hook")) ++ "\n  \x7d\n"))

/-- `TypeScriptGenerator._generate_methods`. -/
def tsGenerateMethods (methods : List PyVal) : String :=
  if methods.isEmpty then ""
  else
    String.intercalate "\n\n" (methods.map (fun m =>
      let name := pyStr (m.dget "name" (vStr ""))
      let pr := m.dget "parameters" (vList [])
      let params := (if pr.truthy then pr else vList []).asList
      let paramStr := String.intercalate ", " (params.map pyStr)
      let b := m.dget "body" (vStr "")
      let body := (if b.truthy then b else vStr "").asStrOr ""
      let indented :=
        if body != "" then String.intercalate "\n    " (pySplitlines body) else ""
      "  " ++ name ++ "(" ++ paramStr ++ ") \x7b\n    " ++ indented ++ "\n  \x7d"))

/-- The `implements` clause of `TypeScriptGenerator.generate`. -/
def tsImplements (lifecycleHooks : List PyVal) : String :=
  if lifecycleHooks.isEmpty then ""
  else
    let impls :=
      (if lifecycleHooks.any (fun h => h.dget "name" vNone == vStr "ngOnInit") then
        ["OnInit"] else []) ++
      (if lifecycleHooks.any (fun h => h.dget "name" vNone == vStr "ngOnDestroy") then
        ["OnDestroy"] else [])
    if impls.isEmpty then "" else " implements " ++ String.intercalate ", " impls

/-- The `method["body"] = normalized` write-back of one method dict in
`TypeScriptGenerator.generate` (non-dict entries would raise in Python). -/
def tsNormalizeMethodDict (propNames : List String) (setters : List (String × String))
    (m : PyVal) : PyVal :=
  let b := m.dget "body" (vStr "")
  let body := (if b.truthy then b else vStr "").asStrOr ""
  m.dset "body" (vStr (normalizeMethodBody body propNames setters))

/-- `TypeScriptGenerator.generate`: returns the generated text together
with the state of the AST after the call.  The normalization loop writes
each normalized body back through the method dicts it shares with
`angular_ast["class"]["methods"]`, so those IR entries change; everything
else of the AST is only read. -/
def tsGenerate (ir : PyVal) (componentName : String) : String × PyVal :=
  let classInfo := ir.dget "class" (vDict [])
  let className := to_pascal_case componentName ++ "Component"
  let autoProperties := tsExtractAutoProperties ir
  let explicitProperties := (classInfo.dget "properties" (vList [])).asList
  let allProperties := tsMergeProperties explicitProperties autoProperties
  let autoMethods := tsExtractAutoMethods ir
  let explicitMethods := (classInfo.dget "methods" (vList [])).asList
  let allMethodsRaw := tsMergeMethods explicitMethods autoMethods
  let setters := settersAsStrings ir
  let propNames : List String := allProperties.filterMap (fun p =>
    match p.dget "name" vNone with
    | .vStr s => some s
    | _ => none)
  let allMethods := allMethodsRaw.map (tsNormalizeMethodDict propNames setters)
  let lifecycleHooks := (classInfo.dget "lifecycleHooks" (vList [])).asList
  let imports := tsGenerateImports allProperties ir lifecycleHooks
  let propertiesCode := tsGenerateProperties allProperties
  let lifecycleCode := tsGenerateLifecycle lifecycleHooks
  let methodsCode := tsGenerateMethods allMethods
  let code := imports ++ "\n\n" ++ tsGenerateDecorator componentName ++
    "\nexport class " ++ className ++ tsImplements lifecycleHooks ++ " \x7b\n" ++
    propertiesCode ++ "\n" ++
    (if lifecycleCode != "" then lifecycleCode else "") ++ "\n" ++
    (if methodsCode != "" then methodsCode else "") ++ "\n\x7d\n"
  let irAfter := ir.updateIfPresent "class" (fun c =>
    c.updateIfPresent "methods" (fun ms =>
      match ms with
      | .vList l => .vList (l.map (tsNormalizeMethodDict propNames setters))
      | x => x))
  (code, irAfter)

/-! ## Projections, node builders and concrete inputs

Projections read the sections of the transformer-produced IR; the node
builders construct esprima-shaped parser nodes (field order follows the
esprima `Node` constructors as serialized by `JSXParser._node_to_dict`,
with the bookkeeping fields `loc`/`range` omitted — no rule reads them)
and the flat element shape that `EventRules.transform` supports for
alternative parser outputs (`{"type": ..., "attributes": [...]}` with
string attribute names). -/

/-- `angular_ast["template"]["bindings"]` as a list. -/
def bindingsListOf (ir : PyVal) : List PyVal :=
  ((ir.dget "template" (vDict [])).dget "bindings" (vList [])).asList

/-- `angular_ast["template"]["elements"]` as a list. -/
def elementsListOf (ir : PyVal) : List PyVal :=
  ((ir.dget "template" (vDict [])).dget "elements" (vList [])).asList

/-- `angular_ast["class"]["name"]`. -/
def classNameOf (ir : PyVal) : PyVal :=
  (ir.dget "class" (vDict [])).dget "name" vNone

/-- `angular_ast["class"]["properties"]` as a list. -/
def classPropsOf (ir : PyVal) : List PyVal :=
  ((ir.dget "class" (vDict [])).dget "properties" (vList [])).asList

/-- `angular_ast["class"]["methods"]` as a list. -/
def classMethodsOf (ir : PyVal) : List PyVal :=
  ((ir.dget "class" (vDict [])).dget "methods" (vList [])).asList

/-- `angular_ast["class"]["lifecycleHooks"]` as a list. -/
def lifecycleHooksOf (ir : PyVal) : List PyVal :=
  ((ir.dget "class" (vDict [])).dget "lifecycleHooks" (vList [])).asList

/-- The names of the IR's properties, in order. -/
def propNamesOf (ir : PyVal) : List PyVal :=
  (classPropsOf ir).map (fun p => p.dget "name" vNone)

/-- `angular_ast["setterMappings"][s]` when present. -/
def setterLookup (ir : PyVal) (s : String) : Option PyVal :=
  (ir.dget "setterMappings" (vDict [])).dgetOpt s

def identN (n : String) : PyVal :=
  vDict [("type", vStr "Identifier"), ("name", vStr n)]

def litV (v : PyVal) : PyVal :=
  vDict [("type", vStr "Literal"), ("value", v)]

def callE (callee : PyVal) (args : List PyVal) : PyVal :=
  vDict [("type", vStr "CallExpression"), ("callee", callee), ("arguments", vList args)]

def binE (l : PyVal) (op : String) (r : PyVal) : PyVal :=
  vDict [("type", vStr "BinaryExpression"), ("left", l), ("operator", vStr op), ("right", r)]

def memberE (o p : PyVal) : PyVal :=
  vDict [("type", vStr "MemberExpression"), ("object", o), ("property", p)]

def arrowE (params : List PyVal) (body : PyVal) : PyVal :=
  vDict [("type", vStr "ArrowFunctionExpression"), ("params", vList params), ("body", body)]

/-- `const [s, setS] = useState(ini)` declarator. -/
def useStateDecl (s setS : String) (ini : PyVal) : PyVal :=
  vDict [("type", vStr "VariableDeclarator"),
         ("id", vDict [("type", vStr "ArrayPattern"),
                       ("elements", vList [identN s, identN setS])]),
         ("init", callE (identN "useState") [ini])]

/-- `const [s] = useState(ini)`: a single destructured name. -/
def useStateSingleDecl (s : String) (ini : PyVal) : PyVal :=
  vDict [("type", vStr "VariableDeclarator"),
         ("id", vDict [("type", vStr "ArrayPattern"), ("elements", vList [identN s])]),
         ("init", callE (identN "useState") [ini])]

def varDeclStmt (decls : List PyVal) : PyVal :=
  vDict [("type", vStr "VariableDeclaration"), ("declarations", vList decls),
         ("kind", vStr "const")]

def blockStmt (stmts : List PyVal) : PyVal :=
  vDict [("type", vStr "BlockStatement"), ("body", vList stmts)]

def fnDecl (name : String) (stmts : List PyVal) : PyVal :=
  vDict [("type", vStr "FunctionDeclaration"), ("id", identN name), ("params", vList []),
         ("body", blockStmt stmts)]

def programT (stmts : List PyVal) : PyVal :=
  vDict [("type", vStr "Program"), ("body", vList stmts), ("sourceType", vStr "module")]

def jsxId (n : String) : PyVal :=
  vDict [("type", vStr "JSXIdentifier"), ("name", vStr n)]

def jsxAttr (n : String) (v : PyVal) : PyVal :=
  vDict [("type", vStr "JSXAttribute"), ("name", jsxId n), ("value", v)]

def jsxEC (e : PyVal) : PyVal :=
  vDict [("type", vStr "JSXExpressionContainer"), ("expression", e)]

def jsxText (t : String) : PyVal :=
  vDict [("type", vStr "JSXText"), ("value", vStr t)]

def jsxElem (tag : String) (attrs children : List PyVal) : PyVal :=
  vDict [("type", vStr "JSXElement"),
         ("openingElement", vDict [("type", vStr "JSXOpeningElement"),
                                   ("name", jsxId tag), ("attributes", vList attrs)]),
         ("children", vList children), ("closingElement", vNone)]

def returnStmt (a : PyVal) : PyVal :=
  vDict [("type", vStr "ReturnStatement"), ("argument", a)]

/-- Flat attribute shape (string name, expression value) accepted by the
event rule for alternative parser outputs. -/
def flatAttr (n : String) (v : PyVal) : PyVal :=
  vDict [("name", vStr n), ("value", v)]

/-- Flat JSX element shape with a top-level `attributes` list. -/
def flatElem (attrs : List PyVal) : PyVal :=
  vDict [("type", vStr "JSXElement"), ("attributes", vList attrs)]

/-- `() => setCount(count + 1)`. -/
def incArrow : PyVal :=
  arrowE [] (callE (identN "setCount") [binE (identN "count") "+" (litV (vInt 1))])

/-- The `count + 1` argument node of `incArrow`. -/
def incBinaryArg : PyVal := binE (identN "count") "+" (litV (vInt 1))

/-- An IR whose setter map sends `setCount` to `count`. -/
def irWithCountSetter : PyVal :=
  initAngularAst.dset "setterMappings" (vDict [("setCount", vStr "count")])

/-- An IR whose setter map sends `setS` to `s`. -/
def irWithSetter (setS s : String) : PyVal :=
  initAngularAst.dset "setterMappings" (vDict [(setS, vStr s)])

/-- A flat element carrying `value={s}` and
`onChange={(e) => setS(e.target.value)}`. -/
def twoWayElem (s setS eParam : String) : PyVal :=
  flatElem [flatAttr "value" (identN s),
            flatAttr "onChange" (arrowE [identN eParam]
              (callE (identN setS)
                [memberE (memberE (identN eParam) (identN "target")) (identN "value")]))]

/-- The end-to-end counter component: `const [count, setCount] =
useState(0)` and a returned `<div>` with a click-handling `<button>` and a
sibling `<span>{count}</span>`, in esprima node shapes. -/
def counterTree : PyVal :=
  programT [fnDecl "Counter"
    [varDeclStmt [useStateDecl "count" "setCount" (litV (vInt 0))],
     returnStmt (jsxElem "div" []
       [jsxElem "button" [jsxAttr "onClick" (jsxEC incArrow)] [jsxText "Increment"],
        jsxElem "span" [] [jsxEC (identN "count")]])]]

/-- A component whose body holds exactly one state-hook declaration. -/
def stateHookTree (s setS : String) (ini : PyVal) : PyVal :=
  programT [fnDecl "Counter" [varDeclStmt [useStateDecl s setS ini]]]

/-- A component with two state-hook declarations sharing the state name
`s` plus a single-name declaration of `t`. -/
def dupStateTree (s t : String) : PyVal :=
  programT [fnDecl "Widget"
    [varDeclStmt [useStateDecl s "setA" (litV (vInt 0))],
     varDeclStmt [useStateDecl s "setB" (litV (vInt 1))],
     varDeclStmt [useStateSingleDecl t (litV (vBool true))]]]

/-- A program whose only component is an arrow function bound to a
variable — no `FunctionDeclaration` node anywhere. -/
def arrowComponentTree : PyVal :=
  programT [varDeclStmt [vDict [("type", vStr "VariableDeclarator"),
                                ("id", identN "App"),
                                ("init", arrowE [] (blockStmt []))]]]

/-- `{items.map((x, i) => <li>{x}</li>)}` as a JSX child. -/
def mapChildOf (arrayName itemName indexName : String) : PyVal :=
  jsxEC (callE (memberE (identN arrayName) (identN "map"))
    [arrowE [identN itemName, identN indexName]
      (jsxElem "li" [] [jsxEC (identN itemName)])])

/-- A transformer-shaped IR with one property `count` and one explicit
method whose body reads `count = count + 1`. -/
def irCounterMethod : PyVal :=
  vDict [("type", vStr "AngularComponent"),
         ("class", vDict [("name", vStr ""),
                          ("properties", vList [vDict [("name", vStr "count"),
                                                       ("type", vStr "number"),
                                                       ("initialValue", vStr "0"),
                                                       ("decorator", vStr "")]]),
                          ("methods", vList [vDict [("name", vStr "increment"),
                                                    ("parameters", vList []),
                                                    ("body", vStr "count = count + 1"),
                                                    ("returnType", vStr "void")]]),
                          ("lifecycleHooks", vList [])]),
         ("template", vDict [("elements", vList []), ("bindings", vList [])]),
         ("styles", vList [])]

/-- The entries stored under the `children` key of an element field list. -/
def childrenEntriesOf (fs : List (String × PyVal)) : List PyVal :=
  match lookupKey fs "children" with
  | some (.vList l) => l
  | _ => []

/-- The element trees the Template Rule can produce: literal strings, and
dicts none of whose keys is `id`, with the same property holding for every
entry of their `children` list. -/
inductive ElemNoId : PyVal → Prop where
  | str (s : String) : ElemNoId (vStr s)
  | elem (fs : List (String × PyVal)) (hkeys : ∀ kv ∈ fs, kv.1 ≠ "id")
      (hch : ∀ c ∈ childrenEntriesOf fs, ElemNoId c) : ElemNoId (vDict fs)

/-- Conversion results: either the `None` sentinel or an id-free element
tree. -/
def ElemOk (v : PyVal) : Prop := v = vNone ∨ ElemNoId v

/-- The parsed-hook dict shape returned by `_parse_usestate`. -/
def hookDict (sn setn iv vt : String) : PyVal :=
  vDict [("type", vStr "useState"), ("stateName", vStr sn), ("setterName", vStr setn),
         ("initialValue", vStr iv), ("valueType", vStr vt)]

/-- The property dict appended by `_transform_usestate`. -/
def propDef (sn iv vt : String) : PyVal :=
  vDict [("name", vStr sn), ("type", vStr vt), ("initialValue", vStr iv),
         ("decorator", vStr "")]

/-- The IR shape after the hooks stage: the empty IR with the given
properties appended and the given setter map installed. -/
def irHooksState (props : List PyVal) (sm : List (String × PyVal)) : PyVal :=
  vDict [("type", vStr "AngularComponent"),
         ("class", vDict [("name", vStr ""), ("properties", vList props),
                          ("methods", vList []), ("lifecycleHooks", vList [])]),
         ("template", vDict [("elements", vList []), ("bindings", vList [])]),
         ("styles", vList []),
         ("setterMappings", vDict sm)]

/-! ## Association-list and IR-shape lemmas -/

theorem beq_pyVal_def (a b : PyVal) : (a == b) = pyBeq a b := rfl

theorem lookupKey_append_left {fs : List (String × PyVal)} (gs : List (String × PyVal))
    {k : String} {v : PyVal} (h : lookupKey fs k = some v) :
    lookupKey (fs ++ gs) k = some v := by
  induction fs with
  | nil => simp [lookupKey] at h
  | cons kv rest ih =>
    rcases kv with ⟨k1, v1⟩
    by_cases hk : k1 = k
    · subst hk; simp_all [lookupKey]
    · simp_all [lookupKey]

theorem lookupKey_append_right {fs : List (String × PyVal)} (gs : List (String × PyVal))
    {k : String} (h : lookupKey fs k = none) :
    lookupKey (fs ++ gs) k = lookupKey gs k := by
  induction fs with
  | nil => simp
  | cons kv rest ih =>
    rcases kv with ⟨k1, v1⟩
    by_cases hk : k1 = k
    · subst hk; simp_all [lookupKey]
    · simp_all [lookupKey]

theorem lookupKey_setKey_self (fs : List (String × PyVal)) (k : String) (v : PyVal) :
    lookupKey (setKey fs k v) k = some v := by
  induction fs with
  | nil => simp [setKey, lookupKey]
  | cons kv rest ih =>
    rcases kv with ⟨k1, v1⟩
    by_cases hk : k1 = k
    · subst hk; simp [setKey, lookupKey]
    · simp_all [setKey, lookupKey]

theorem lookupKey_setKey_ne (fs : List (String × PyVal)) (k0 k : String) (v : PyVal)
    (h : ¬(k0 = k)) :
    lookupKey (setKey fs k0 v) k = lookupKey fs k := by
  induction fs with
  | nil => simp [setKey, lookupKey, h]
  | cons kv rest ih =>
    rcases kv with ⟨k1, v1⟩
    by_cases hk : k1 = k0
    · subst hk; simp_all [setKey, lookupKey]
    · by_cases h2 : k1 = k
      · subst h2; simp_all [setKey, lookupKey]
      · simp_all [setKey, lookupKey]

theorem mem_setKey {kv : String × PyVal} {fs : List (String × PyVal)} {k : String}
    {v : PyVal} (h : kv ∈ setKey fs k v) : kv.1 = k ∨ kv ∈ fs := by
  induction fs with
  | nil =>
    simp [setKey] at h
    subst h
    exact Or.inl rfl
  | cons kv1 rest ih =>
    rcases kv1 with ⟨k1, v1⟩
    by_cases hk : k1 = k
    · subst hk
      simp only [setKey, beq_self_eq_true, if_pos] at h
      rcases List.mem_cons.mp h with h1 | h1
      · subst h1; exact Or.inl rfl
      · exact Or.inr (List.mem_cons_of_mem _ h1)
    · have hk' : (k1 == k) = false := by simp [hk]
      simp only [setKey, hk', Bool.false_eq_true, if_false] at h
      rcases List.mem_cons.mp h with h1 | h1
      · subst h1; exact Or.inr (List.mem_cons_self _ _)
      · rcases ih h1 with h2 | h2
        · exact Or.inl h2
        · exact Or.inr (List.mem_cons_of_mem _ h2)

theorem dgetOpt_updateIfPresent_ne (ir : PyVal) (k0 : String) (f : PyVal → PyVal)
    (k : String) (h : ¬(k = k0)) :
    (ir.updateIfPresent k0 f).dgetOpt k = ir.dgetOpt k := by
  cases ir with
  | vDict fs =>
    show lookupKey (fs.map fun kv => bif kv.1 == k0 then (kv.1, f kv.2) else kv) k =
      lookupKey fs k
    induction fs with
    | nil => rfl
    | cons kv rest ih =>
      rcases kv with ⟨k1, v1⟩
      by_cases h1 : k1 = k0
      · have hb : (k1 == k0) = true := by simp [h1]
        have hne : ¬(k1 = k) := fun e => h (by rw [← e, h1])
        have hb2 : (k1 == k) = false := by simp [hne]
        simp only [List.map_cons, hb, cond_true, lookupKey, hb2, Bool.false_eq_true,
                   if_false]
        exact ih
      · have hb : (k1 == k0) = false := by simp [h1]
        by_cases h2 : k1 = k
        · have hb2 : (k1 == k) = true := by simp [h2]
          simp only [List.map_cons, hb, cond_false, lookupKey, hb2, if_true]
        · have hb2 : (k1 == k) = false := by simp [h2]
          simp only [List.map_cons, hb, cond_false, lookupKey, hb2, Bool.false_eq_true,
                     if_false]
          exact ih
  | vNone => rfl
  | vBool b => rfl
  | vInt n => rfl
  | vStr s => rfl
  | vList xs => rfl

theorem dgetOpt_appendTemplateBinding_ne (ir b : PyVal) {k : String}
    (h : ¬(k = "template")) :
    (appendTemplateBinding ir b).dgetOpt k = ir.dgetOpt k := by
  have hne : ¬(("template" : String) = k) := fun e => h e.symm
  unfold appendTemplateBinding
  split
  · next fs =>
    split
    · next ht =>
      show lookupKey (fs ++ [("template", vDict [("bindings", vList [b])])]) k =
        lookupKey fs k
      rcases hk : lookupKey fs k with _ | v
      · rw [lookupKey_append_right _ hk]
        simp [lookupKey, hne]
      · exact lookupKey_append_left _ hk
    · next tfs ht =>
      split
      · next hb2 => exact lookupKey_setKey_ne _ _ _ _ hne
      · next bs hb2 => exact lookupKey_setKey_ne _ _ _ _ hne
      · next => rfl
    · next => rfl
  · next => rfl

theorem mem_bindings_appendTemplateBinding {ir nb b : PyVal}
    (hb : b ∈ bindingsListOf (appendTemplateBinding ir nb)) :
    b ∈ bindingsListOf ir ∨ b = nb := by
  unfold appendTemplateBinding at hb
  split at hb
  · next fs =>
    split at hb
    · next ht =>
      have he : bindingsListOf
          (vDict (fs ++ [("template", vDict [("bindings", vList [nb])])])) = [nb] := by
        simp [bindingsListOf, PyVal.dget, PyVal.dgetOpt, lookupKey_append_right _ ht,
              lookupKey, PyVal.asList]
      rw [he] at hb
      simp at hb
      exact Or.inr hb
    · next tfs ht =>
      split at hb
      · next hb2 =>
        have he : bindingsListOf
            (vDict (setKey fs "template" (vDict (tfs ++ [("bindings", vList [nb])])))) =
              [nb] := by
          simp [bindingsListOf, PyVal.dget, PyVal.dgetOpt, lookupKey_setKey_self,
                lookupKey_append_right _ hb2, lookupKey, PyVal.asList]
        rw [he] at hb
        simp at hb
        exact Or.inr hb
      · next bs hb2 =>
        have h1 : bindingsListOf
            (vDict (setKey fs "template"
              (vDict (setKey tfs "bindings" (vList (bs ++ [nb])))))) = bs ++ [nb] := by
          simp [bindingsListOf, PyVal.dget, PyVal.dgetOpt, lookupKey_setKey_self,
                PyVal.asList]
        have h2 : bindingsListOf (vDict fs) = bs := by
          simp [bindingsListOf, PyVal.dget, PyVal.dgetOpt, ht, hb2, PyVal.asList]
        rw [h1] at hb
        rcases List.mem_append.mp hb with h3 | h3
        · exact Or.inl (h2 ▸ h3)
        · simp at h3
          exact Or.inr h3
      · next => exact Or.inl hb
    · next => exact Or.inl hb
  · next => exact Or.inl hb

theorem mem_bindings_processEventAttr {fuel : Nat} {setters : List (String × PyVal)}
    {acc attr b : PyVal}
    (hb : b ∈ bindingsListOf (processEventAttr fuel setters acc attr)) :
    b ∈ bindingsListOf acc ∨ b.hasKey "target" = false := by
  unfold processEventAttr at hb
  split at hb
  · next s heq =>
    split at hb
    · exact Or.inl hb
    · rcases mem_bindings_appendTemplateBinding hb with h1 | h1
      · exact Or.inl h1
      · subst h1
        exact Or.inr rfl
  · exact Or.inl hb

theorem mem_bindings_attrs_foldl {fuel : Nat} {setters : List (String × PyVal)}
    {attrs : List PyVal} {ir b : PyVal}
    (hb : b ∈ bindingsListOf (attrs.foldl (processEventAttr fuel setters) ir)) :
    b ∈ bindingsListOf ir ∨ b.hasKey "target" = false := by
  induction attrs generalizing ir with
  | nil => exact Or.inl hb
  | cons a rest ih =>
    rw [List.foldl_cons] at hb
    rcases ih hb with h1 | h1
    · exact mem_bindings_processEventAttr h1
    · exact Or.inr h1

theorem mem_bindings_processJsxNode {fuel : Nat} {setters : List (String × PyVal)}
    {node ir b : PyVal}
    (hb : b ∈ bindingsListOf (processJsxNode fuel setters node ir)) :
    b ∈ bindingsListOf ir ∨ b.hasKey "target" = false := by
  unfold processJsxNode at hb
  simp only [] at hb
  split at hb
  · next twb heq =>
    rcases mem_bindings_appendTemplateBinding hb with h1 | h1
    · exact Or.inl h1
    · subst h1
      exact Or.inr rfl
  · exact mem_bindings_attrs_foldl hb

theorem mem_bindings_nodes_foldl {fuel : Nat} {setters : List (String × PyVal)}
    {nodes : List PyVal} {ir b : PyVal}
    (hb : b ∈ bindingsListOf
      (nodes.foldl (fun acc node => processJsxNode fuel setters node acc) ir)) :
    b ∈ bindingsListOf ir ∨ b.hasKey "target" = false := by
  induction nodes generalizing ir with
  | nil => exact Or.inl hb
  | cons a rest ih =>
    rw [List.foldl_cons] at hb
    rcases ih hb with h1 | h1
    · exact mem_bindings_processJsxNode h1
    · exact Or.inr h1

theorem dgetOpt_processEventAttr_ne {fuel : Nat} {setters : List (String × PyVal)}
    (acc attr : PyVal) {k : String} (h : ¬(k = "template")) :
    (processEventAttr fuel setters acc attr).dgetOpt k = acc.dgetOpt k := by
  unfold processEventAttr
  split
  · split
    · rfl
    · exact dgetOpt_appendTemplateBinding_ne _ _ h
  · rfl

theorem dgetOpt_attrs_foldl_ne {fuel : Nat} {setters : List (String × PyVal)}
    {attrs : List PyVal} (ir : PyVal) {k : String} (h : ¬(k = "template")) :
    (attrs.foldl (processEventAttr fuel setters) ir).dgetOpt k = ir.dgetOpt k := by
  induction attrs generalizing ir with
  | nil => rfl
  | cons a rest ih =>
    rw [List.foldl_cons, ih]
    exact dgetOpt_processEventAttr_ne _ _ h

theorem dgetOpt_processJsxNode_ne {fuel : Nat} {setters : List (String × PyVal)}
    (node ir : PyVal) {k : String} (h : ¬(k = "template")) :
    (processJsxNode fuel setters node ir).dgetOpt k = ir.dgetOpt k := by
  unfold processJsxNode
  simp only []
  split
  · exact dgetOpt_appendTemplateBinding_ne _ _ h
  · exact dgetOpt_attrs_foldl_ne _ h

theorem dgetOpt_nodes_foldl_ne {fuel : Nat} {setters : List (String × PyVal)}
    (nodes : List PyVal) (ir : PyVal) {k : String} (h : ¬(k = "template")) :
    (nodes.foldl (fun acc node => processJsxNode fuel setters node acc) ir).dgetOpt k =
      ir.dgetOpt k := by
  induction nodes generalizing ir with
  | nil => rfl
  | cons a rest ih =>
    rw [List.foldl_cons, ih]
    exact dgetOpt_processJsxNode_ne _ _ h

theorem dgetOpt_eventRulesTransform_ne (fuel : Nat) (ast ir : PyVal) {k : String}
    (h : ¬(k = "template")) :
    (eventRulesTransform fuel ast ir).dgetOpt k = ir.dgetOpt k := by
  unfold eventRulesTransform
  exact dgetOpt_nodes_foldl_ne _ _ h

theorem dgetOpt_jsxRulesTransform_ne (fuel : Nat) (ast ir : PyVal) {k : String}
    (h : ¬(k = "template")) :
    (jsxRulesTransform fuel ast ir).dgetOpt k = ir.dgetOpt k := by
  unfold jsxRulesTransform
  simp only []
  split
  · rfl
  · split
    · exact dgetOpt_updateIfPresent_ne _ _ _ _ h
    · rfl

/-! ## Claims -/

/-- C1 (amended): every binding the Event Rule appends to the IR's
template bindings list carries NO target element id — each binding of the
resulting list either was already present before the call or lacks the
`target` key entirely, for every input tree and incoming IR.  (As stated,
the claim fails: the rule builds its binding dicts with only
`type`/`property`/`value` or `type`/`name`/`handler` keys.) -/
theorem c1_event_bindings_untargeted (fuel : Nat) (reactAst ir b : PyVal)
    (hb : b ∈ bindingsListOf (eventRulesTransform fuel reactAst ir)) :
    b ∈ bindingsListOf ir ∨ b.hasKey "target" = false := by
  unfold eventRulesTransform at hb
  exact mem_bindings_nodes_foldl hb

/-- Witness for C1: the click binding produced from a flat element with an
`onClick={handleClick}` attribute satisfies the amended property. -/
theorem c1_event_bindings_untargeted_witness :
    (vDict [("type", vStr "event"), ("name", vStr "(click)"),
            ("handler", vStr "go()")]) ∈
        bindingsListOf (eventRulesTransform 8
          (flatElem [flatAttr "onClick" (identN "go")]) initAngularAst) ∧
    ((vDict [("type", vStr "event"), ("name", vStr "(click)"),
             ("handler", vStr "go()")]) ∈ bindingsListOf initAngularAst ∨
      (vDict [("type", vStr "event"), ("name", vStr "(click)"),
              ("handler", vStr "go()")]).hasKey "target" = false) := by
  have hmem : (vDict [("type", vStr "event"), ("name", vStr "(click)"),
      ("handler", vStr "go()")]) ∈
        bindingsListOf (eventRulesTransform 8
          (flatElem [flatAttr "onClick" (identN "go")]) initAngularAst) := by
    rw [show bindingsListOf (eventRulesTransform 8
          (flatElem [flatAttr "onClick" (identN "go")]) initAngularAst) =
        [vDict [("type", vStr "event"), ("name", vStr "(click)"),
                ("handler", vStr "go()")]] from rfl]
    exact List.mem_singleton_self _
  exact ⟨hmem, c1_event_bindings_untargeted 8 _ initAngularAst _ hmem⟩

/-- C1 counterexample: a flat element whose `onClick` attribute is a bare
identifier yields exactly one event binding, and it does not carry the
element's id as target — it has no `target` key at all. -/
theorem c1_counterexample :
    bindingsListOf (eventRulesTransform 8
        (flatElem [flatAttr "onClick" (identN "handleClick")]) initAngularAst) =
      [vDict [("type", vStr "event"), ("name", vStr "(click)"),
              ("handler", vStr "handleClick()")]] ∧
    ((bindingsListOf (eventRulesTransform 8
        (flatElem [flatAttr "onClick" (identN "handleClick")]) initAngularAst)).all
      (fun b => b.hasKey "target")) = false := ⟨rfl, rfl⟩

/-- C3 (code bug): on the end-to-end counter example — esprima-shaped, one
`useState` pair and a `<div>` containing a click-handling `<button>` and a
sibling `<span>` — the transformer emits NO click binding at all: the
Event Rule reads `jsx_element["attributes"]`, but esprima stores
attributes under `openingElement.attributes` (with dict-valued names), so
no element attributes are ever seen.  The converted template elements also
carry no click information (the JSX rule drops `on*` attributes), so the
rendered template cannot attach the click-event syntax to any element,
contradicting the claim (and the transformer's own module docstring,
"EventRules receives the function → correct (click), (change), ngModel
detection"). -/
theorem c3_counter_template_has_no_click_binding :
    bindingsListOf (astTransform 64 counterTree) = [] ∧
    elementsListOf (astTransform 64 counterTree) =
      [vDict [("type", vStr "Element"), ("tag", vStr "div"), ("attributes", vList []),
              ("children", vList
                [vDict [("type", vStr "Element"), ("tag", vStr "button"),
                        ("attributes", vList []),
                        ("children", vList [vStr "Increment"])],
                 vDict [("type", vStr "Element"), ("tag", vStr "span"),
                        ("attributes", vList []),
                        ("children", vList [vStr "\x7b\x7b count \x7d\x7d"])]])]] :=
  ⟨rfl, rfl⟩

/-- C4 (code bug): for the tracked pair `count`/`setCount` and the click
handler `() => setCount(count + 1)`, the Event Rule emits an event binding
whose handler text is NOT the assignment `count = count + 1`:
`_ast_to_string` has no `BinaryExpression` case, so the argument falls
back to Python `str(node)` and the handler text is `count = ` followed by
the dict repr of the argument node (it begins with
`count = {'type': 'BinaryExpression'`). -/
theorem c4_increment_handler_not_assignment :
    bindingsListOf (eventRulesTransform 32
        (flatElem [flatAttr "onClick" incArrow]) irWithCountSetter) =
      [vDict [("type", vStr "event"), ("name", vStr "(click)"),
              ("handler", vStr ("count = " ++ pyStr incBinaryArg))]] ∧
    ("count = " ++ pyStr incBinaryArg) ≠ "count = count + 1" ∧
    strStartsWith ("count = " ++ pyStr incBinaryArg)
      "count = \x7b\x27type\x27: \x27BinaryExpression\x27" = true :=
  ⟨rfl, by decide, by decide⟩

/-- C9: a `items.map((x, i) => <li>{x}</li>)` child expression is
converted into an `li` element carrying the repetition directive
`{array: items, item: x, index: i}` and exactly one interpolated child
rendering the item, for all array/item/index names. -/
theorem c9_list_rendering (fuel : Nat) (arrayName itemName indexName : String) :
    convertChild (fuel + 6) (mapChildOf arrayName itemName indexName) =
      vDict [("type", vStr "Element"), ("tag", vStr "li"), ("attributes", vList []),
             ("children", vList [vStr ("\x7b\x7b " ++ itemName ++ " \x7d\x7d")]),
             ("ngFor", vDict [("array", vStr arrayName), ("item", vStr itemName),
                              ("index", vStr indexName)])] := rfl

/-- C10: whenever no component function is found in the input tree, the
transformer returns the freshly-built IR with empty class and template
sections, without error. -/
theorem c10_missing_component (fuel : Nat) (tree : PyVal)
    (h : findComponentFunction fuel tree = PyVal.vNone) :
    astTransform fuel tree = initAngularAst ∧
    classNameOf (astTransform fuel tree) = vStr "" ∧
    classPropsOf (astTransform fuel tree) = [] ∧
    classMethodsOf (astTransform fuel tree) = [] ∧
    lifecycleHooksOf (astTransform fuel tree) = [] ∧
    elementsListOf (astTransform fuel tree) = [] ∧
    bindingsListOf (astTransform fuel tree) = [] := by
  have e : astTransform fuel tree = initAngularAst := by
    unfold astTransform
    rw [h]
    rfl
  refine ⟨e, ?_, ?_, ?_, ?_, ?_, ?_⟩ <;> rw [e] <;> rfl

/-- Witness for C10: a program whose only component is an arrow function
bound to a variable has no `FunctionDeclaration`, and the transform
returns the empty IR. -/
theorem c10_missing_component_witness :
    findComponentFunction 50 arrowComponentTree = PyVal.vNone ∧
    (astTransform 50 arrowComponentTree = initAngularAst ∧
     classNameOf (astTransform 50 arrowComponentTree) = vStr "" ∧
     classPropsOf (astTransform 50 arrowComponentTree) = [] ∧
     classMethodsOf (astTransform 50 arrowComponentTree) = [] ∧
     lifecycleHooksOf (astTransform 50 arrowComponentTree) = [] ∧
     elementsListOf (astTransform 50 arrowComponentTree) = [] ∧
     bindingsListOf (astTransform 50 arrowComponentTree) = []) :=
  ⟨rfl, c10_missing_component 50 arrowComponentTree rfl⟩

/-- C5 (amended): for every element whose raw attributes carry
`value={s}` and `onChange={(e) => setS(e.target.value)}` with `setS`
mapped to `s`, the Event Rule emits exactly one `twoWay` binding for `s`
and no separate event binding — but the binding does NOT target that
element: it has no `target` key (and the rule has no element identity to
record). -/
theorem c5_two_way_fused_but_untargeted (s setS eParam : String) :
    bindingsListOf (eventRulesTransform 32 (twoWayElem s setS eParam) (irWithSetter setS s)) =
      [vDict [("type", vStr "twoWay"), ("property", vStr s), ("value", vStr s)]] ∧
    (vDict [("type", vStr "twoWay"), ("property", vStr s),
            ("value", vStr s)]).hasKey "target" = false := by
  refine ⟨?_, rfl⟩
  have e1 : lookupKey [(setS, vStr s)] setS = some (vStr s) := by
    simp [lookupKey]
  have h2 : detectTwoWayBinding
      [flatAttr "value" (identN s),
       flatAttr "onChange" (arrowE [identN eParam]
         (callE (identN setS)
           [memberE (memberE (identN eParam) (identN "target")) (identN "value")]))]
      [(setS, vStr s)] = some (vDict [("property", vStr s), ("value", vStr s)]) := by
    change (match (match (match lookupKey [(setS, vStr s)] setS with
          | some mapped =>
            if pyBeq mapped (vStr s) = true then
              some (vDict [("property", vStr s), ("value", vStr s)])
            else none
          | none => none) with
        | some r => some r
        | none => none) with
      | some r => some r
      | none => none) = some (vDict [("property", vStr s), ("value", vStr s)])
    rw [e1]
    have e2 : pyBeq (vStr s) (vStr s) = true := by
      rw [show pyBeq (vStr s) (vStr s) = (s == s) from rfl]
      exact beq_self_eq_true s
    change (match (match (if pyBeq (vStr s) (vStr s) = true then
          some (vDict [("property", vStr s), ("value", vStr s)]) else none) with
        | some r => some r
        | none => none) with
      | some r => some r
      | none => none) = some (vDict [("property", vStr s), ("value", vStr s)])
    rw [e2]
    rfl
  have h3 : processJsxNode 32 [(setS, vStr s)] (twoWayElem s setS eParam) (irWithSetter setS s)
      = appendTemplateBinding (irWithSetter setS s)
          (vDict [("type", vStr "twoWay"), ("property", vStr s), ("value", vStr s)]) := by
    change (match detectTwoWayBinding
        [flatAttr "value" (identN s),
         flatAttr "onChange" (arrowE [identN eParam]
           (callE (identN setS)
             [memberE (memberE (identN eParam) (identN "target")) (identN "value")]))]
        [(setS, vStr s)] with
      | some twb =>
        appendTemplateBinding (irWithSetter setS s)
          (vDict [("type", vStr "twoWay"), ("property", twb.dget "property" vNone),
                  ("value", twb.dget "value" vNone)])
      | none =>
        [flatAttr "value" (identN s),
         flatAttr "onChange" (arrowE [identN eParam]
           (callE (identN setS)
             [memberE (memberE (identN eParam) (identN "target")) (identN "value")]))].foldl
          (fun acc attr => processEventAttr 32 [(setS, vStr s)] acc attr)
          (irWithSetter setS s)) =
      appendTemplateBinding (irWithSetter setS s)
        (vDict [("type", vStr "twoWay"), ("property", vStr s), ("value", vStr s)])
    rw [h2]
    rfl
  calc bindingsListOf (eventRulesTransform 32 (twoWayElem s setS eParam) (irWithSetter setS s))
      = bindingsListOf (processJsxNode 32 [(setS, vStr s)]
          (twoWayElem s setS eParam) (irWithSetter setS s)) := rfl
    _ = bindingsListOf (appendTemplateBinding (irWithSetter setS s)
          (vDict [("type", vStr "twoWay"), ("property", vStr s), ("value", vStr s)])) := by
        rw [h3]
    _ = [vDict [("type", vStr "twoWay"), ("property", vStr s), ("value", vStr s)]] := rfl

/-- C5 counterexample: for the concrete tracked pair `name`/`setName`,
the single fused `twoWay` binding carries no `target` key, so it does not
target the originating element as claimed. -/
theorem c5_counterexample :
    bindingsListOf (eventRulesTransform 32 (twoWayElem "name" "setName" "e")
        (irWithSetter "setName" "name")) =
      [vDict [("type", vStr "twoWay"), ("property", vStr "name"), ("value", vStr "name")]] ∧
    ((bindingsListOf (eventRulesTransform 32 (twoWayElem "name" "setName" "e")
        (irWithSetter "setName" "name"))).all
      (fun b => b.hasKey "target")) = false := ⟨rfl, rfl⟩

/-- C8 (amended): the HTML and CSS generators read the IR only, and the
TypeScript generator's only write is the method-body normalization under
the `class` key: for every IR, component name and non-`class` key, the
post-call AST state agrees with the original on that key, and the HTML
and CSS outputs computed from the post-call state are byte-identical to
those computed from the original.  (As stated, the claim fails: the
TypeScript generator mutates the shared method dicts' `body` fields.) -/
theorem c8_generators_read_only_outside_class (ir : PyVal) (m n : String) (fuel : Nat)
    (k : String) (hk : k ≠ "class") :
    htmlGenerate fuel (tsGenerate ir m).2 n = htmlGenerate fuel ir n ∧
    cssGenerate (tsGenerate ir m).2 n = cssGenerate ir n ∧
    ((tsGenerate ir m).2).dgetOpt k = ir.dgetOpt k := by
  have hkey : ∀ k2 : String, ¬(k2 = "class") →
      ((tsGenerate ir m).2).dgetOpt k2 = ir.dgetOpt k2 := by
    intro k2 h2
    exact dgetOpt_updateIfPresent_ne ir "class" _ k2 h2
  refine ⟨?_, ?_, hkey k hk⟩
  · show htmlGenerateFromTemplate fuel
        (((tsGenerate ir m).2.dgetOpt "template").getD (vDict [])) =
      htmlGenerateFromTemplate fuel ((ir.dgetOpt "template").getD (vDict []))
    rw [hkey "template" (by decide)]
  · show cssGenerateFromStyles (((tsGenerate ir m).2.dgetOpt "styles").getD (vList [])) n =
      cssGenerateFromStyles ((ir.dgetOpt "styles").getD (vList [])) n
    rw [hkey "styles" (by decide)]

/-- Witness for C8: on the concrete counter IR, the post-TypeScript state
agrees with the original on the `template` key and leaves the HTML and
CSS outputs unchanged. -/
theorem c8_generators_read_only_outside_class_witness :
    "template" ≠ "class" ∧
    (htmlGenerate 8 (tsGenerate irCounterMethod "counter").2 "counter" =
        htmlGenerate 8 irCounterMethod "counter" ∧
      cssGenerate (tsGenerate irCounterMethod "counter").2 "counter" =
        cssGenerate irCounterMethod "counter" ∧
      ((tsGenerate irCounterMethod "counter").2).dgetOpt "template" =
        irCounterMethod.dgetOpt "template") :=
  ⟨by decide,
   c8_generators_read_only_outside_class irCounterMethod "counter" "counter" 8 "template"
     (by decide)⟩

/-- C8 counterexample: generating TypeScript from the counter IR rewrites
the stored method body `count = count + 1` to `this.count = this.count + 1;`
through the shared method dict, so the IR is NOT left unchanged. -/
theorem c8_counterexample :
    ((classMethodsOf (tsGenerate irCounterMethod "counter").2).headD vNone).dget
        "body" vNone = vStr "this.count = this.count + 1;" ∧
    ((classMethodsOf irCounterMethod).headD vNone).dget "body" vNone =
      vStr "count = count + 1" ∧
    (tsGenerate irCounterMethod "counter").2 ≠ irCounterMethod := by
  refine ⟨rfl, rfl, ?_⟩
  intro h
  have h2 : (vStr "this.count = this.count + 1;" : PyVal) = vStr "count = count + 1" := by
    rw [show (vStr "this.count = this.count + 1;" : PyVal) =
        ((classMethodsOf (tsGenerate irCounterMethod "counter").2).headD vNone).dget
          "body" vNone from rfl, h]
    rfl
  injection h2 with h3
  exact absurd h3 (by decide)

/-- `ElemOk` is preserved through a two-branch conditional. -/
theorem elemOk_ite (c : Prop) [Decidable c] (x y : PyVal) (hx : ElemOk x) (hy : ElemOk y) :
    ElemOk (if c then x else y) := by
  by_cases h : c
  · rw [if_pos h]
    exact hx
  · rw [if_neg h]
    exact hy

/-- The four-key element dict built by `_convert_jsx_to_angular` is id-free
whenever its children are. -/
theorem elemNoId_of_four (t a : PyVal) (ch : List PyVal)
    (hch : ∀ c ∈ ch, ElemNoId c) :
    ElemNoId (vDict [("type", vStr "Element"), ("tag", t), ("attributes", a),
                     ("children", vList ch)]) := by
  refine ElemNoId.elem _ ?_ ?_
  · intro kv hkv
    simp only [List.mem_cons, List.not_mem_nil, or_false] at hkv
    rcases hkv with rfl | rfl | rfl | rfl <;> simp
  · intro c hc
    rw [show childrenEntriesOf
        [("type", vStr "Element"), ("tag", t), ("attributes", a),
         ("children", vList ch)] = ch from rfl] at hc
    exact hch c hc

/-- The fallback `li` element of `_convert_map_expression_to_element` is
id-free. -/
theorem elemNoId_li_fallback (ng : PyVal) (s : String) :
    ElemNoId (vDict [("type", vStr "Element"), ("tag", vStr "li"),
                     ("attributes", vList []), ("ngFor", ng),
                     ("children", vList [vStr s])]) := by
  refine ElemNoId.elem _ ?_ ?_
  · intro kv hkv
    simp only [List.mem_cons, List.not_mem_nil, or_false] at hkv
    rcases hkv with rfl | rfl | rfl | rfl | rfl <;> simp
  · intro c hc
    rw [show childrenEntriesOf
        [("type", vStr "Element"), ("tag", vStr "li"), ("attributes", vList []),
         ("ngFor", ng), ("children", vList [vStr s])] = [vStr s] from rfl] at hc
    simp only [List.mem_singleton] at hc
    subst hc
    exact ElemNoId.str s

/-- Joint fuel induction: the three mutually recursive converters of the
Template Rule only ever produce `None` or id-free element trees. -/
theorem convertNoIdAux (fuel : Nat) :
    (∀ jsx, ElemOk (convertJsxToAngular fuel jsx)) ∧
    (∀ child, ElemOk (convertChild fuel child)) ∧
    (∀ expr, ElemOk (convertMapExpressionToElement fuel expr)) := by
  induction fuel with
  | zero => exact ⟨fun _ => Or.inl rfl, fun _ => Or.inl rfl, fun _ => Or.inl rfl⟩
  | succ n ih =>
    obtain ⟨ihJ, ihC, ihM⟩ := ih
    refine ⟨?_, ?_, ?_⟩
    · intro jsx
      cases jsx with
      | vDict fs =>
        refine Or.inr (elemNoId_of_four _ _ _ ?_)
        intro c hc
        split at hc
        · rw [List.mem_filter] at hc
          obtain ⟨hmem, hkeep⟩ := hc
          rw [List.mem_map] at hmem
          obtain ⟨x, hx, rfl⟩ := hmem
          rcases ihC x with hn | hni
          · rw [hn] at hkeep
            exact absurd hkeep (by decide)
          · exact hni
        · exact absurd hc (List.not_mem_nil c)
      | vNone => exact Or.inl rfl
      | vBool b => exact Or.inl rfl
      | vInt i => exact Or.inl rfl
      | vStr s => exact Or.inl rfl
      | vList l => exact Or.inl rfl
    · intro child
      cases child with
      | vStr s => exact Or.inr (ElemNoId.str _)
      | vDict fs =>
        show ElemOk (convertChild (n + 1) (vDict fs))
        unfold convertChild
        simp only []
        split
        · exact Or.inr (ElemNoId.str _)
        · split
          · split
            · exact elemOk_ite _ _ _ (ihM _) (Or.inr (ElemNoId.str _))
            · exact Or.inr (ElemNoId.str _)
          · split
            · exact ihJ _
            · exact Or.inl rfl
      | vNone => exact Or.inl rfl
      | vBool b => exact Or.inl rfl
      | vInt i => exact Or.inl rfl
      | vList l => exact Or.inl rfl
    · intro expr
      cases expr with
      | vDict fs =>
        show ElemOk (convertMapExpressionToElement (n + 1) (vDict fs))
        unfold convertMapExpressionToElement
        simp only []
        split
        · exact Or.inl rfl
        · split
          · split
            · split
              · exact Or.inr (elemNoId_li_fallback _ _)
              · rename_i jb hjb
                rcases ihJ jb with hn | hni
                · rw [hn]
                  exact Or.inl rfl
                · revert hni
                  generalize convertJsxToAngular n jb = v
                  intro hni
                  cases hni with
                  | str s => exact Or.inr (ElemNoId.str s)
                  | elem gs hkeys hch =>
                    refine Or.inr (ElemNoId.elem _ ?_ ?_)
                    · intro kv hkv
                      rcases mem_setKey hkv with h1 | h1
                      · rw [h1]
                        decide
                      · exact hkeys kv h1
                    · intro c hc
                      apply hch
                      unfold childrenEntriesOf at hc ⊢
                      rw [lookupKey_setKey_ne gs "ngFor" "children" _ (by decide)] at hc
                      exact hc
            · exact Or.inl rfl
          · exact Or.inl rfl
      | vNone => exact Or.inl rfl
      | vBool b => exact Or.inl rfl
      | vInt i => exact Or.inl rfl
      | vStr s => exact Or.inl rfl
      | vList l => exact Or.inl rfl

/-- C2 (amended): no Element node created by the Template Rule ever
carries an `id` key — at any fuel and for any input node, the conversion
yields `None` or an element tree in which every dict, recursively through
the children lists, is id-free.  (As stated, the claim fails: no
identifier is assigned at creation time at all, so there are no element
ids to be pairwise distinct and the Event Rule cannot attach bindings by
identity.) -/
theorem c2_elements_have_no_id (fuel : Nat) (jsx : PyVal) :
    ElemOk (convertJsxToAngular fuel jsx) :=
  (convertNoIdAux fuel).1 jsx

/-- C2 counterexample: converting a concrete `<div><span>hi</span></div>`
yields an element without an `id` key, and its nested converted child also
has no `id` key — contradicting assignment of identifiers at creation
time. -/
theorem c2_counterexample :
    (convertJsxToAngular 16 (jsxElem "div" []
        [jsxElem "span" [] [jsxText "hi"]])).hasKey "id" = false ∧
    (((convertJsxToAngular 16 (jsxElem "div" []
        [jsxElem "span" [] [jsxText "hi"]])).dget "children" vNone).asList.headD
      vNone).hasKey "id" = false := ⟨rfl, rfl⟩

/-- A nonempty string is truthy. -/
theorem truthy_vStr_of_ne (s : String) (h : s ≠ "") : PyVal.truthy (vStr s) = true := by
  simp [PyVal.truthy, h]

/-- C6: for a component whose body holds exactly one state-hook
declaration `const [s, setS] = useState(X)` with nonempty names, the
transformed IR has exactly one property, named `s`, and its setter map
sends `setS` to `s` — for every initial-value node `X`. -/
theorem c6_state_hook_round_trip (s setS : String) (ini : PyVal)
    (hs : s ≠ "") (hset : setS ≠ "") :
    propNamesOf (astTransform 64 (stateHookTree s setS ini)) = [vStr s] ∧
    setterLookup (astTransform 64 (stateHookTree s setS ini)) setS = some (vStr s) := by
  have hts := truthy_vStr_of_ne s hs
  have htset := truthy_vStr_of_ne setS hset
  have htrans : transformUsestate
      (hookDict s setS (nodeToStringH 60 ini) (inferType (nodeToStringH 60 ini)))
      initAngularAst =
      irHooksState [propDef s (nodeToStringH 60 ini) (inferType (nodeToStringH 60 ini))]
        [(setS, vStr s)] := by
    unfold transformUsestate
    simp only []
    rw [show (hookDict s setS (nodeToStringH 60 ini) (inferType (nodeToStringH 60 ini))).dget
          "stateName" (vStr "") = vStr s from rfl,
        show (hookDict s setS (nodeToStringH 60 ini) (inferType (nodeToStringH 60 ini))).dget
          "setterName" (vStr "") = vStr setS from rfl,
        hts, htset]
    rfl
  have hstage : hooksRulesTransform 64
      (fnDecl "Counter" [varDeclStmt [useStateDecl s setS ini]]) initAngularAst =
      irHooksState [propDef s (nodeToStringH 60 ini) (inferType (nodeToStringH 60 ini))]
        [(setS, vStr s)] := by
    show (extractUsestateHooks 64
        (fnDecl "Counter" [varDeclStmt [useStateDecl s setS ini]])).foldl
        (fun acc h => transformUsestate h acc) initAngularAst = _
    rw [show extractUsestateHooks 64
        (fnDecl "Counter" [varDeclStmt [useStateDecl s setS ini]]) =
        [hookDict s setS (nodeToStringH 60 ini) (inferType (nodeToStringH 60 ini))] from rfl]
    exact htrans
  have hfinal : astTransform 64 (stateHookTree s setS ini) =
      eventRulesTransform 64 (fnDecl "Counter" [varDeclStmt [useStateDecl s setS ini]])
        (jsxRulesTransform 64 (fnDecl "Counter" [varDeclStmt [useStateDecl s setS ini]])
          (irHooksState [propDef s (nodeToStringH 60 ini) (inferType (nodeToStringH 60 ini))]
            [(setS, vStr s)])) := by
    calc astTransform 64 (stateHookTree s setS ini)
        = eventRulesTransform 64 (fnDecl "Counter" [varDeclStmt [useStateDecl s setS ini]])
            (jsxRulesTransform 64 (fnDecl "Counter" [varDeclStmt [useStateDecl s setS ini]])
              (componentRulesTransform 64
                (fnDecl "Counter" [varDeclStmt [useStateDecl s setS ini]])
                (hooksRulesTransform 64
                  (fnDecl "Counter" [varDeclStmt [useStateDecl s setS ini]])
                  initAngularAst))) := rfl
      _ = eventRulesTransform 64 (fnDecl "Counter" [varDeclStmt [useStateDecl s setS ini]])
            (jsxRulesTransform 64 (fnDecl "Counter" [varDeclStmt [useStateDecl s setS ini]])
              (componentRulesTransform 64
                (fnDecl "Counter" [varDeclStmt [useStateDecl s setS ini]])
                (irHooksState
                  [propDef s (nodeToStringH 60 ini) (inferType (nodeToStringH 60 ini))]
                  [(setS, vStr s)]))) := by rw [hstage]
      _ = eventRulesTransform 64 (fnDecl "Counter" [varDeclStmt [useStateDecl s setS ini]])
            (jsxRulesTransform 64 (fnDecl "Counter" [varDeclStmt [useStateDecl s setS ini]])
              (irHooksState
                [propDef s (nodeToStringH 60 ini) (inferType (nodeToStringH 60 ini))]
                [(setS, vStr s)])) := by
            rw [show componentRulesTransform 64
                (fnDecl "Counter" [varDeclStmt [useStateDecl s setS ini]])
                (irHooksState
                  [propDef s (nodeToStringH 60 ini) (inferType (nodeToStringH 60 ini))]
                  [(setS, vStr s)]) =
                irHooksState
                  [propDef s (nodeToStringH 60 ini) (inferType (nodeToStringH 60 ini))]
                  [(setS, vStr s)] from rfl]
  have hclassOpt : (astTransform 64 (stateHookTree s setS ini)).dgetOpt "class" =
      (irHooksState [propDef s (nodeToStringH 60 ini) (inferType (nodeToStringH 60 ini))]
        [(setS, vStr s)]).dgetOpt "class" := by
    rw [hfinal]
    rw [dgetOpt_eventRulesTransform_ne _ _ _ (by decide),
        dgetOpt_jsxRulesTransform_ne _ _ _ (by decide)]
  have hsmOpt : (astTransform 64 (stateHookTree s setS ini)).dgetOpt "setterMappings" =
      (irHooksState [propDef s (nodeToStringH 60 ini) (inferType (nodeToStringH 60 ini))]
        [(setS, vStr s)]).dgetOpt "setterMappings" := by
    rw [hfinal]
    rw [dgetOpt_eventRulesTransform_ne _ _ _ (by decide),
        dgetOpt_jsxRulesTransform_ne _ _ _ (by decide)]
  constructor
  · show ((((astTransform 64 (stateHookTree s setS ini)).dgetOpt "class").getD
        (vDict [])).dget "properties" (vList [])).asList.map
        (fun p => p.dget "name" vNone) = [vStr s]
    rw [hclassOpt]
    rfl
  · show (((astTransform 64 (stateHookTree s setS ini)).dgetOpt
        "setterMappings").getD (vDict [])).dgetOpt setS = some (vStr s)
    rw [hsmOpt]
    rw [show (((irHooksState
        [propDef s (nodeToStringH 60 ini) (inferType (nodeToStringH 60 ini))]
        [(setS, vStr s)]).dgetOpt "setterMappings").getD (vDict [])) =
        vDict [(setS, vStr s)] from rfl]
    show lookupKey [(setS, vStr s)] setS = some (vStr s)
    simp [lookupKey]

/-- Witness for C6: the concrete pair `count`/`setCount` with initial
value `0` round-trips to one `count` property and the setter mapping. -/
theorem c6_state_hook_round_trip_witness :
    ("count" : String) ≠ "" ∧ ("setCount" : String) ≠ "" ∧
    (propNamesOf (astTransform 64
        (stateHookTree "count" "setCount" (litV (vInt 0)))) = [vStr "count"] ∧
      setterLookup (astTransform 64
        (stateHookTree "count" "setCount" (litV (vInt 0)))) "setCount" =
        some (vStr "count")) :=
  ⟨by decide, by decide,
   c6_state_hook_round_trip "count" "setCount" (litV (vInt 0)) (by decide) (by decide)⟩

/-- C7 (amended): the hooks rule performs no duplicate check at all — for
the component with declarations `const [s, setA] = useState(0)`,
`const [s, setB] = useState(1)` and `const [t] = useState(true)` (nonempty
`s`, `t`), the transformed IR's property names are exactly
`[s, s, t]`: the duplicate state name IS re-emitted as a second property,
and a declaration with a single destructured name also adds a property.
(As stated, the claim's no-duplicates invariant fails.) -/
theorem c7_duplicate_properties_reemitted (s t : String) (hs : s ≠ "") (ht : t ≠ "") :
    propNamesOf (astTransform 64 (dupStateTree s t)) = [vStr s, vStr s, vStr t] := by
  have hts := truthy_vStr_of_ne s hs
  have htt := truthy_vStr_of_ne t ht
  have htr1 : transformUsestate (hookDict s "setA" "0" "number") initAngularAst =
      irHooksState [propDef s "0" "number"] [("setA", vStr s)] := by
    unfold transformUsestate
    simp only []
    rw [show (hookDict s "setA" "0" "number").dget "stateName" (vStr "") = vStr s from rfl,
        hts]
    rfl
  have htr2 : transformUsestate (hookDict s "setB" "1" "number")
      (irHooksState [propDef s "0" "number"] [("setA", vStr s)]) =
      irHooksState [propDef s "0" "number", propDef s "1" "number"]
        [("setA", vStr s), ("setB", vStr s)] := by
    unfold transformUsestate
    simp only []
    rw [show (hookDict s "setB" "1" "number").dget "stateName" (vStr "") = vStr s from rfl,
        hts]
    rfl
  have htr3 : transformUsestate (hookDict t "" "True" "any")
      (irHooksState [propDef s "0" "number", propDef s "1" "number"]
        [("setA", vStr s), ("setB", vStr s)]) =
      irHooksState [propDef s "0" "number", propDef s "1" "number", propDef t "True" "any"]
        [("setA", vStr s), ("setB", vStr s)] := by
    unfold transformUsestate
    simp only []
    rw [show (hookDict t "" "True" "any").dget "stateName" (vStr "") = vStr t from rfl,
        htt]
    rfl
  have hstage : hooksRulesTransform 64 (fnDecl "Widget"
      [varDeclStmt [useStateDecl s "setA" (litV (vInt 0))],
       varDeclStmt [useStateDecl s "setB" (litV (vInt 1))],
       varDeclStmt [useStateSingleDecl t (litV (vBool true))]]) initAngularAst =
      irHooksState [propDef s "0" "number", propDef s "1" "number", propDef t "True" "any"]
        [("setA", vStr s), ("setB", vStr s)] := by
    show (extractUsestateHooks 64 (fnDecl "Widget"
        [varDeclStmt [useStateDecl s "setA" (litV (vInt 0))],
         varDeclStmt [useStateDecl s "setB" (litV (vInt 1))],
         varDeclStmt [useStateSingleDecl t (litV (vBool true))]])).foldl
        (fun acc h => transformUsestate h acc) initAngularAst = _
    rw [show extractUsestateHooks 64 (fnDecl "Widget"
        [varDeclStmt [useStateDecl s "setA" (litV (vInt 0))],
         varDeclStmt [useStateDecl s "setB" (litV (vInt 1))],
         varDeclStmt [useStateSingleDecl t (litV (vBool true))]]) =
        [hookDict s "setA" "0" "number", hookDict s "setB" "1" "number",
         hookDict t "" "True" "any"] from rfl]
    show transformUsestate (hookDict t "" "True" "any")
        (transformUsestate (hookDict s "setB" "1" "number")
          (transformUsestate (hookDict s "setA" "0" "number") initAngularAst)) = _
    rw [htr1, htr2, htr3]
  have hfinal : astTransform 64 (dupStateTree s t) =
      eventRulesTransform 64 (fnDecl "Widget"
        [varDeclStmt [useStateDecl s "setA" (litV (vInt 0))],
         varDeclStmt [useStateDecl s "setB" (litV (vInt 1))],
         varDeclStmt [useStateSingleDecl t (litV (vBool true))]])
        (jsxRulesTransform 64 (fnDecl "Widget"
          [varDeclStmt [useStateDecl s "setA" (litV (vInt 0))],
           varDeclStmt [useStateDecl s "setB" (litV (vInt 1))],
           varDeclStmt [useStateSingleDecl t (litV (vBool true))]])
          (irHooksState
            [propDef s "0" "number", propDef s "1" "number", propDef t "True" "any"]
            [("setA", vStr s), ("setB", vStr s)])) := by
    calc astTransform 64 (dupStateTree s t)
        = eventRulesTransform 64 (fnDecl "Widget"
            [varDeclStmt [useStateDecl s "setA" (litV (vInt 0))],
             varDeclStmt [useStateDecl s "setB" (litV (vInt 1))],
             varDeclStmt [useStateSingleDecl t (litV (vBool true))]])
            (jsxRulesTransform 64 (fnDecl "Widget"
              [varDeclStmt [useStateDecl s "setA" (litV (vInt 0))],
               varDeclStmt [useStateDecl s "setB" (litV (vInt 1))],
               varDeclStmt [useStateSingleDecl t (litV (vBool true))]])
              (componentRulesTransform 64 (fnDecl "Widget"
                [varDeclStmt [useStateDecl s "setA" (litV (vInt 0))],
                 varDeclStmt [useStateDecl s "setB" (litV (vInt 1))],
                 varDeclStmt [useStateSingleDecl t (litV (vBool true))]])
                (hooksRulesTransform 64 (fnDecl "Widget"
                  [varDeclStmt [useStateDecl s "setA" (litV (vInt 0))],
                   varDeclStmt [useStateDecl s "setB" (litV (vInt 1))],
                   varDeclStmt [useStateSingleDecl t (litV (vBool true))]])
                  initAngularAst))) := rfl
      _ = eventRulesTransform 64 (fnDecl "Widget"
            [varDeclStmt [useStateDecl s "setA" (litV (vInt 0))],
             varDeclStmt [useStateDecl s "setB" (litV (vInt 1))],
             varDeclStmt [useStateSingleDecl t (litV (vBool true))]])
            (jsxRulesTransform 64 (fnDecl "Widget"
              [varDeclStmt [useStateDecl s "setA" (litV (vInt 0))],
               varDeclStmt [useStateDecl s "setB" (litV (vInt 1))],
               varDeclStmt [useStateSingleDecl t (litV (vBool true))]])
              (componentRulesTransform 64 (fnDecl "Widget"
                [varDeclStmt [useStateDecl s "setA" (litV (vInt 0))],
                 varDeclStmt [useStateDecl s "setB" (litV (vInt 1))],
                 varDeclStmt [useStateSingleDecl t (litV (vBool true))]])
                (irHooksState
                  [propDef s "0" "number", propDef s "1" "number",
                   propDef t "True" "any"]
                  [("setA", vStr s), ("setB", vStr s)]))) := by rw [hstage]
      _ = eventRulesTransform 64 (fnDecl "Widget"
            [varDeclStmt [useStateDecl s "setA" (litV (vInt 0))],
             varDeclStmt [useStateDecl s "setB" (litV (vInt 1))],
             varDeclStmt [useStateSingleDecl t (litV (vBool true))]])
            (jsxRulesTransform 64 (fnDecl "Widget"
              [varDeclStmt [useStateDecl s "setA" (litV (vInt 0))],
               varDeclStmt [useStateDecl s "setB" (litV (vInt 1))],
               varDeclStmt [useStateSingleDecl t (litV (vBool true))]])
              (irHooksState
                [propDef s "0" "number", propDef s "1" "number", propDef t "True" "any"]
                [("setA", vStr s), ("setB", vStr s)])) := by
            rw [show componentRulesTransform 64 (fnDecl "Widget"
                [varDeclStmt [useStateDecl s "setA" (litV (vInt 0))],
                 varDeclStmt [useStateDecl s "setB" (litV (vInt 1))],
                 varDeclStmt [useStateSingleDecl t (litV (vBool true))]])
                (irHooksState
                  [propDef s "0" "number", propDef s "1" "number",
                   propDef t "True" "any"]
                  [("setA", vStr s), ("setB", vStr s)]) =
                irHooksState
                  [propDef s "0" "number", propDef s "1" "number", propDef t "True" "any"]
                  [("setA", vStr s), ("setB", vStr s)] from rfl]
  have hclassOpt : (astTransform 64 (dupStateTree s t)).dgetOpt "class" =
      (irHooksState [propDef s "0" "number", propDef s "1" "number", propDef t "True" "any"]
        [("setA", vStr s), ("setB", vStr s)]).dgetOpt "class" := by
    rw [hfinal]
    rw [dgetOpt_eventRulesTransform_ne _ _ _ (by decide),
        dgetOpt_jsxRulesTransform_ne _ _ _ (by decide)]
  show ((((astTransform 64 (dupStateTree s t)).dgetOpt "class").getD
      (vDict [])).dget "properties" (vList [])).asList.map
      (fun p => p.dget "name" vNone) = [vStr s, vStr s, vStr t]
  rw [hclassOpt]
  rfl

/-- Witness for C7: the concrete duplicated pair `count`/`flag` yields the
property names `[count, count, flag]`. -/
theorem c7_duplicate_properties_reemitted_witness :
    ("count" : String) ≠ "" ∧ ("flag" : String) ≠ "" ∧
    propNamesOf (astTransform 64 (dupStateTree "count" "flag")) =
      [vStr "count", vStr "count", vStr "flag"] :=
  ⟨by decide, by decide,
   c7_duplicate_properties_reemitted "count" "flag" (by decide) (by decide)⟩

/-- C7 counterexample: after transforming the component with a duplicated
state name, the IR's property name list contains duplicates. -/
theorem c7_counterexample :
    ¬ ((propNamesOf (astTransform 64 (dupStateTree "count" "flag"))).map pyStr).Nodup := by
  decide
